import Mathlib

/-!
Verification development for the `node-nutrunner-open-library` Open Protocol
client (`index.js`).  The JavaScript source is shallowly embedded: strings are
`List Char`, JS numbers are modelled by `JsNum` (a rational or `NaN`; the
protocol only manipulates decimal fields, so the idealisation of IEEE doubles
by rationals is exact on every value the claims touch), JS `Map`s are
association lists with insertion-order semantics, thrown exceptions are
explicit `Option JsErr` results that carry the partially mutated state (as JS
does), and the Node timers (watchdog, per-command timeouts) become explicit
transition-system steps that are enabled exactly when the corresponding timer
is live.
-/

set_option maxHeartbeats 1600000
set_option maxRecDepth 8192
set_option linter.unusedVariables false

/-- JS strings are modelled as lists of characters. -/
abbrev Str := List Char

/-- Whitespace characters recognised by the embedding of `trim` /
`parseInt` (the protocol only ever pads with plain spaces). -/
def isSpaceChar (c : Char) : Bool :=
  c = ' ' || c = '\t' || c = '\n' || c = '\r'

/-- Embedding of `String.prototype.trim`. -/
def jsTrim (s : Str) : Str :=
  ((s.dropWhile isSpaceChar).reverse.dropWhile isSpaceChar).reverse

/-- Embedding of `s.slice(a, b)` for the non-negative indices used by the
source: characters from index `a` (inclusive) to `b` (exclusive), clamped. -/
def jsSlice (s : Str) (a b : Nat) : Str :=
  (s.drop a).take (b - a)

/-- Embedding of `s.slice(a)` (drop the first `a` characters). -/
def jsSliceFrom (s : Str) (a : Nat) : Str :=
  s.drop a

/-- Embedding of `s.charAt(i) || '0'`: the character at `i`, or `'0'` when
out of range (JS `charAt` yields the falsy empty string there). -/
def jsCharAtD (s : Str) (i : Nat) : Char :=
  (s.get? i).getD '0'

/-- Embedding of `s[i] === c`: true only when index `i` is in range and holds
`c` (out of range gives `undefined`, which never equals a character). -/
def jsCharEq (s : Str) (i : Nat) (c : Char) : Bool :=
  s.get? i = some c

/-- Numeric value of a decimal digit character. -/
def digitVal (c : Char) : Nat :=
  c.toNat - 48

/-- Value of a string of decimal digits (most significant first). -/
def digitsToNat (s : Str) : Nat :=
  s.foldl (fun a c => 10 * a + digitVal c) 0

/-- Auxiliary for `natToStr`: structural recursion on a fuel bound (any fuel
above the value itself is enough, see `natToStrAux_fuel_irrelevant`-style
lemmas below), keeping the definition kernel-computable. -/
def natToStrAux : Nat → Nat → Str
  | 0, _ => []
  | fuel + 1, n =>
      if n < 10 then [Nat.digitChar n]
      else natToStrAux fuel (n / 10) ++ [Nat.digitChar (n % 10)]

/-- Decimal rendering of a natural number, as `Number.prototype.toString`
produces for the non-negative integers the source renders. -/
def natToStr (n : Nat) : Str := natToStrAux (n + 1) n

/-- Embedding of `String.prototype.padStart(w, ch)`. -/
def padStart (w : Nat) (ch : Char) (s : Str) : Str :=
  List.replicate (w - s.length) ch ++ s

/-- Embedding of `String.prototype.padEnd(w, ch)`. -/
def padEnd (w : Nat) (ch : Char) (s : Str) : Str :=
  s ++ List.replicate (w - s.length) ch

/-- A JS number: either `NaN` or a rational value.  The client only performs
decimal parsing, `+1`, `/100` and comparisons, all of which are exact, so
rationals model the doubles faithfully on every reachable value. -/
inductive JsNum where
  | nan : JsNum
  | num : ℚ → JsNum
deriving DecidableEq, Repr

/-- Embedding of the JS `<` comparison (false whenever `NaN` is involved). -/
def JsNum.ltB : JsNum → JsNum → Bool
  | .num a, .num b => a < b
  | _, _ => false

/-- Embedding of the JS `>` comparison (false whenever `NaN` is involved). -/
def JsNum.gtB : JsNum → JsNum → Bool
  | .num a, .num b => a > b
  | _, _ => false

/-- Embedding of `x + 1` on a JS number (`NaN` is absorbing). -/
def JsNum.inc : JsNum → JsNum
  | .nan => .nan
  | .num a => .num (a + 1)

/-- Embedding of `x / 100` on a JS number (`NaN` is absorbing). -/
def JsNum.div100 : JsNum → JsNum
  | .nan => .nan
  | .num a => .num (a / 100)

/-- Embedding of `x || 1` on a JS number: `NaN` and `0` are falsy. -/
def JsNum.orOne : JsNum → JsNum
  | .nan => .num 1
  | .num a => if a = 0 then .num 1 else .num a

/-- Embedding of `counter >= size` where `size` may be `null` (as in
`_handleTighteningResult`): JS coerces `null` to `0` in relational
comparisons, and any comparison with `NaN` is false. -/
def jsGeOptNull (a : JsNum) (b : Option JsNum) : Bool :=
  match a, b with
  | .num x, some (.num y) => x ≥ y
  | .num x, none => x ≥ 0
  | _, _ => false

/-- Embedding of `n < b` where `n` is an integer (a `Map` size) and `b` a JS
number (false when `b` is `NaN`). -/
def jsNatLt (n : Nat) (b : JsNum) : Bool :=
  match b with
  | .num q => (n : ℚ) < q
  | .nan => false

/-- Embedding of `Number(s)` restricted to the shapes the protocol produces:
the empty (or all-blank) string is `0`, optionally `-`-signed decimal digit
strings are their value, and anything else is `NaN`.  (Fractional,
exponential and hexadecimal literals never occur in the fixed-width decimal
fields this client parses.) -/
def jsNumber (s : Str) : JsNum :=
  let t := jsTrim s
  if t = [] then .num 0
  else if t.all Char.isDigit then .num (digitsToNat t)
  else
    match t with
    | '-' :: rest =>
        if rest ≠ [] && rest.all Char.isDigit then .num (-(digitsToNat rest : ℚ))
        else .nan
    | _ => .nan

/-- Embedding of `parseInt(s, 10)`: skip leading whitespace, take an optional
sign and then the longest prefix of decimal digits; `NaN` when that prefix is
empty. -/
def jsParseInt (s : Str) : JsNum :=
  let t := s.dropWhile isSpaceChar
  match t with
  | '-' :: rest =>
      let ds := rest.takeWhile Char.isDigit
      if ds = [] then .nan else .num (-(digitsToNat ds : ℚ))
  | '+' :: rest =>
      let ds := rest.takeWhile Char.isDigit
      if ds = [] then .nan else .num (digitsToNat ds)
  | _ =>
      let ds := t.takeWhile Char.isDigit
      if ds = [] then .nan else .num (digitsToNat ds)

/-- Strip embedded NUL bytes, as `_onData` does before buffering. -/
def stripNul (s : Str) : Str :=
  s.filter (fun c => c ≠ Char.ofNat 0)

section StrLemmas

theorem digitsToNat_append (s t : Str) :
    digitsToNat (s ++ t) = t.foldl (fun a c => 10 * a + digitVal c) (digitsToNat s) := by
  simp [digitsToNat, List.foldl_append]

theorem digitsToNat_append_digit (s : Str) (c : Char) :
    digitsToNat (s ++ [c]) = 10 * digitsToNat s + digitVal c := by
  simp [digitsToNat_append, List.foldl]

theorem digitChar_isDigit (d : Nat) (h : d < 10) : (Nat.digitChar d).isDigit = true := by
  interval_cases d <;> decide

theorem digitVal_digitChar (d : Nat) (h : d < 10) : digitVal (Nat.digitChar d) = d := by
  interval_cases d <;> decide

theorem natToStrAux_ne_nil (fuel n : Nat) (h : n < fuel) : natToStrAux fuel n ≠ [] := by
  cases fuel with
  | zero => omega
  | succ fuel =>
    rw [natToStrAux]
    split <;> simp

theorem natToStr_ne_nil (n : Nat) : natToStr n ≠ [] :=
  natToStrAux_ne_nil (n + 1) n (by omega)

theorem natToStrAux_all_digits (fuel n : Nat) (h : n < fuel) :
    (natToStrAux fuel n).all Char.isDigit = true := by
  induction fuel generalizing n with
  | zero => omega
  | succ fuel ih =>
    rw [natToStrAux]
    split
    · next h10 => simp [List.all_cons, digitChar_isDigit _ h10]
    · next h10 =>
      have hd : n / 10 < n := Nat.div_lt_self (by omega) (by omega)
      simp only [List.all_append, List.all_cons, List.all_nil, Bool.and_true,
        Bool.and_eq_true]
      exact ⟨ih (n / 10) (by omega), digitChar_isDigit (n % 10) (Nat.mod_lt _ (by omega))⟩

theorem natToStr_all_digits (n : Nat) : (natToStr n).all Char.isDigit = true :=
  natToStrAux_all_digits (n + 1) n (by omega)

theorem digitsToNat_natToStrAux (fuel n : Nat) (h : n < fuel) :
    digitsToNat (natToStrAux fuel n) = n := by
  induction fuel generalizing n with
  | zero => omega
  | succ fuel ih =>
    rw [natToStrAux]
    split
    · next h10 =>
      simp [digitsToNat, List.foldl, digitVal_digitChar n h10]
    · next h10 =>
      have hd : n / 10 < n := Nat.div_lt_self (by omega) (by omega)
      rw [digitsToNat_append_digit, ih (n / 10) (by omega),
        digitVal_digitChar (n % 10) (Nat.mod_lt _ (by omega))]
      omega

theorem digitsToNat_natToStr (n : Nat) : digitsToNat (natToStr n) = n :=
  digitsToNat_natToStrAux (n + 1) n (by omega)

theorem digitsToNat_replicate_zero (k : Nat) (s : Str) :
    digitsToNat (List.replicate k '0' ++ s) = digitsToNat s := by
  induction k with
  | zero => simp
  | succ k ih =>
    have h0 : digitVal '0' = 0 := by decide
    simp only [List.replicate_succ, List.cons_append, digitsToNat, List.foldl_cons]
    simpa [digitsToNat, h0] using ih

theorem digitsToNat_padStart (w : Nat) (s : Str) :
    digitsToNat (padStart w '0' s) = digitsToNat s := by
  simp [padStart, digitsToNat_replicate_zero]

theorem natToStrAux_length_le (k fuel n : Nat) (h : n < 10 ^ k) (hk : 1 ≤ k)
    (hf : n < fuel) : (natToStrAux fuel n).length ≤ k := by
  induction k generalizing n fuel with
  | zero => exact absurd hk (by omega)
  | succ k ih =>
    cases fuel with
    | zero => omega
    | succ fuel =>
      rw [natToStrAux]
      split
      · simp
      · next hn =>
        have hk1 : 1 ≤ k := by
          rcases Nat.eq_zero_or_pos k with hk0 | hk0
          · subst hk0; simp at h; omega
          · omega
        have hdiv : n / 10 < 10 ^ k := Nat.div_lt_of_lt_mul (by
          have hp : (10 : Nat) ^ (k + 1) = 10 ^ k * 10 := by ring
          omega)
        have hfd : n / 10 < fuel := by
          have : n / 10 < n := Nat.div_lt_self (by omega) (by omega)
          omega
        have hlen := ih fuel (n / 10) hdiv hk1 hfd
        simp only [List.length_append, List.length_cons, List.length_nil]
        omega

theorem natToStr_length_le (k n : Nat) (h : n < 10 ^ k) (hk : 1 ≤ k) :
    (natToStr n).length ≤ k :=
  natToStrAux_length_le k (n + 1) n h hk (by omega)

theorem padStart_length (w : Nat) (ch : Char) (s : Str) (h : s.length ≤ w) :
    (padStart w ch s).length = w := by
  simp [padStart]
  omega

theorem padStart_all_digits (w : Nat) (s : Str) (h : s.all Char.isDigit = true) :
    (padStart w '0' s).all Char.isDigit = true := by
  have hrep : (List.replicate (w - s.length) '0').all Char.isDigit = true := by
    simp only [List.all_eq_true]
    intro c hc
    rw [List.eq_of_mem_replicate hc]
    decide
  simp [padStart, List.all_append, hrep, h]

theorem jsParseInt_digits (s : Str) (hne : s ≠ []) (hd : s.all Char.isDigit = true) :
    jsParseInt s = .num (digitsToNat s) := by
  cases s with
  | nil => exact absurd rfl hne
  | cons c rest =>
    simp only [List.all_cons, Bool.and_eq_true] at hd
    have hc : c.isDigit = true := hd.1
    have hcs : isSpaceChar c = false := by
      by_contra hx
      have hx' : isSpaceChar c = true := by simpa using hx
      simp only [isSpaceChar, Bool.or_eq_true, decide_eq_true_eq] at hx'
      rcases hx' with ((h | h) | h) | h <;> subst h <;> exact absurd hc (by decide)
    have hcm1 : c ≠ '-' := by
      rintro rfl; exact absurd hc (by decide)
    have hcm2 : c ≠ '+' := by
      rintro rfl; exact absurd hc (by decide)
    have hdrop : (c :: rest).dropWhile isSpaceChar = c :: rest := by
      simp [List.dropWhile, hcs]
    have htake : (c :: rest).takeWhile Char.isDigit = c :: rest :=
      List.takeWhile_eq_self_iff.mpr (by
        intro x hx
        rcases List.mem_cons.mp hx with rfl | hx
        · exact hc
        · exact (List.all_eq_true.mp hd.2) x hx)
    rw [jsParseInt]
    simp only [hdrop]
    split
    · next heq => exact absurd (List.head_eq_of_cons_eq heq.symm) (fun h => hcm1 h.symm)
    · next heq => exact absurd (List.head_eq_of_cons_eq heq.symm) (fun h => hcm2 h.symm)
    · simp [htake]

end StrLemmas

/-! ## Data model

The state tree of `createInitialState()` in `index.js`, with JS `Map`s as
association lists (insertion order preserved) and the two Node timers
(tightening watchdog, per-command timeout) represented by liveness flags:
`watchdogArmed` is true exactly when a watchdog `setTimeout` is pending, and
a pending command's timeout timer is live exactly while its entry is in
`pendingCommands` (the source clears the timer whenever it deletes the
entry).  Timer expiry is modelled as an explicit transition-system step. -/

/-- The `tool.spindleCountSource` enumeration. -/
inductive SpindleSource where
  | default
  | mid101
  | mid061
  | config
  | manual
deriving DecidableEq, Repr

/-- A parsed MID 0070 alarm record (`_parseMID`, case 70). -/
structure Alarm where
  alarmCode : Str
  controllerReady : Bool
  toolReady : Bool
  timestamp : Str
  message : Str
deriving DecidableEq, Repr

/-- A parsed tightening result (`_parse0061` / `_parse0065`).  Fields absent
from a revision's layout are `none`, mirroring the absent JS object
properties of that branch. -/
structure TRes where
  tighteningId : Str
  spindle : JsNum
  torque : JsNum
  angle : JsNum
  torqueStatus : Option Char
  angleStatus : Option Char
  ok : Bool
  torqueMin : Option JsNum := none
  torqueMax : Option JsNum := none
  torqueFinal : Option JsNum := none
  torqueTarget : Option JsNum := none
  angleMin : Option JsNum := none
  angleMax : Option JsNum := none
  angleTarget : Option JsNum := none
  timestamp : Option Str := none
  batchStatus : Option Char := none
  vin : Option Str := none
  jobId : Option JsNum := none
  paramSetId : Option JsNum := none
  cellId : Option JsNum := none
  channelId : Option JsNum := none
  controllerName : Option Str := none
  batchSize : Option JsNum := none
  batchCounter : Option JsNum := none
  lastPsetChange : Option Str := none
deriving DecidableEq, Repr

/-- Embedding of `_parse0061`, dispatching on `this.state.protocol.revision`. -/
def parse0061 (rev : ℚ) (p : Str) : TRes :=
  if rev = 1 then
    { tighteningId := jsSlice p 0 10
      spindle := .num 1
      torque := (jsNumber (jsSlice p 10 16)).div100
      angle := jsNumber (jsSlice p 16 22)
      torqueStatus := p.get? 22
      angleStatus := p.get? 23
      ok := jsCharEq p 22 '1' && jsCharEq p 23 '1' }
  else if rev = 4 then
    { cellId := some (jsNumber (jsSlice p 0 4))
      channelId := some (jsNumber (jsSlice p 4 6))
      controllerName := some (jsTrim (jsSlice p 6 31))
      vin := some (jsTrim (jsSlice p 31 56))
      jobId := some (jsNumber (jsSlice p 56 60))
      paramSetId := some (jsNumber (jsSlice p 60 63))
      batchSize := some (jsNumber (jsSlice p 63 67))
      batchCounter := some (jsNumber (jsSlice p 67 71))
      ok := jsCharEq p 71 '1'
      torqueStatus := p.get? 72
      angleStatus := p.get? 73
      torqueMin := some ((jsNumber (jsSlice p 74 80)).div100)
      torqueMax := some ((jsNumber (jsSlice p 80 86)).div100)
      torqueTarget := some ((jsNumber (jsSlice p 86 92)).div100)
      torque := (jsNumber (jsSlice p 92 98)).div100
      angleMin := some (jsNumber (jsSlice p 98 103))
      angleMax := some (jsNumber (jsSlice p 103 108))
      angleTarget := some (jsNumber (jsSlice p 108 113))
      angle := jsNumber (jsSlice p 113 118)
      timestamp := some (jsSlice p 118 137)
      lastPsetChange := some (jsSlice p 137 156)
      batchStatus := p.get? 156
      tighteningId := jsSlice p 157 167
      spindle := .num 1 }
  else
    { tighteningId := jsSlice p 0 10
      spindle := (jsNumber (jsSlice p 10 12)).orOne
      torque := (jsNumber (jsSlice p 12 18)).div100
      angle := jsNumber (jsSlice p 18 24)
      torqueMin := some ((jsNumber (jsSlice p 24 30)).div100)
      torqueMax := some ((jsNumber (jsSlice p 30 36)).div100)
      torqueFinal := some ((jsNumber (jsSlice p 36 42)).div100)
      torqueStatus := some (jsCharAtD p 42)
      angleStatus := some (jsCharAtD p 43)
      timestamp := some (jsSlice p 44 63)
      ok := decide (jsCharAtD p 42 = '1') && decide (jsCharAtD p 43 = '1')
      batchStatus := some (jsCharAtD p 49)
      vin := some (jsTrim (jsSlice p 63 88))
      jobId := some (jsNumber (jsSlice p 88 92))
      paramSetId := some (jsNumber (jsSlice p 92 95)) }

/-- Embedding of `_parse0065`. -/
def parse0065 (p : Str) : TRes :=
  { tighteningId := jsSlice p 0 10
    spindle := (jsNumber (jsSlice p 10 12)).orOne
    torque := (jsNumber (jsSlice p 12 18)).div100
    angle := jsNumber (jsSlice p 18 24)
    torqueStatus := some (jsCharAtD p 24)
    angleStatus := some (jsCharAtD p 25)
    ok := decide (jsCharAtD p 24 = '1') && decide (jsCharAtD p 25 = '1')
    timestamp := some (jsSlice p 26 45) }

/-- Embedding of `_parseAlarmList`: four-character chunks, skipping `"0000"`. -/
def parseAlarmList (s : Str) : List Str :=
  if s = [] then []
  else
    (if s.take 4 = ['0', '0', '0', '0'] then [] else [s.take 4])
      ++ parseAlarmList (s.drop 4)
termination_by s.length
decreasing_by
  rename_i h
  have : s.length ≠ 0 := by simpa [List.length_eq_zero] using h
  simp [List.length_drop]
  omega

/-- A typed inbound message, the output of `_parseMID`.  Its constructor is
determined by the MID, so the `switch (mid)` of `_handleMID` becomes a match
on this type. -/
inductive Parsed where
  | commStartAck (revision : ℚ)
  | cmdError (failedMid : JsNum) (errorCode : JsNum) (message : Str)
  | cmdAccepted (acceptedMid : JsNum)
  | paramSetReply (paramSetId : JsNum)
  | batchDecAck (batchCounter : JsNum)
  | toolStatus (controllerReady toolEnabled toolRunning alarmActive : Bool)
  | vinReply (vin : Str)
  | vinRequiredMsg
  | jobReply (jobId : JsNum)
  | batchReply (batchId batchSize batchCounter : JsNum)
  | result (r : TRes)
  | alarmMsg (a : Alarm)
  | alarmStatusMsg (alarmStatus : Bool) (currentAlarms : List Str)
  | multiSpindle (cycleId : Str) (spindleCount : JsNum) (overallOk : Bool) (timestamp : Str)
  | raw (p : Str)
deriving DecidableEq, Repr

/-- Embedding of `_parseMID` (the revision is read from
`this.state.protocol.revision` for MID 0061). -/
def parseMID (revision : ℚ) (mid : JsNum) (p : Str) : Parsed :=
  if mid = .num 2 ∨ mid = .num 3 then
    .commStartAck
      (match jsParseInt (jsTrim (jsSlice p 0 2)) with
        | .nan => 1
        | .num q => q)
  else if mid = .num 4 then
    .cmdError (jsNumber (jsSlice p 0 4)) (jsNumber (jsSlice p 4 8))
      (jsTrim (jsSliceFrom p 8))
  else if mid = .num 5 then
    .cmdAccepted (jsNumber (jsSlice p 0 4))
  else if mid = .num 11 then
    .paramSetReply (jsNumber (jsSlice p 0 3))
  else if mid = .num 21 then
    .batchDecAck (jsNumber (jsSlice p 0 4))
  else if mid = .num 41 then
    .toolStatus (jsCharEq p 0 '1') (jsCharEq p 1 '1') (jsCharEq p 2 '1') (jsCharEq p 3 '1')
  else if mid = .num 51 then
    .vinReply (jsTrim p)
  else if mid = .num 52 then
    .vinRequiredMsg
  else if mid = .num 35 then
    .jobReply (jsNumber (jsSlice p 0 4))
  else if mid = .num 31 then
    .batchReply (jsNumber (jsSlice p 0 4)) (jsNumber (jsSlice p 4 8))
      (jsNumber (jsSlice p 8 12))
  else if mid = .num 61 then
    .result (parse0061 revision p)
  else if mid = .num 65 then
    .result (parse0065 p)
  else if mid = .num 70 then
    .alarmMsg
      { alarmCode := jsSlice p 0 4
        controllerReady := jsCharEq p 4 '1'
        toolReady := jsCharEq p 5 '1'
        timestamp := jsSlice p 6 25
        message := jsTrim (jsSliceFrom p 25) }
  else if mid = .num 76 then
    .alarmStatusMsg (jsCharEq p 0 '1') (parseAlarmList (jsSliceFrom p 1))
  else if mid = .num 101 then
    .multiSpindle (jsSlice p 0 10) (jsNumber (jsSlice p 10 12)) (jsCharEq p 12 '1')
      (jsSlice p 13 32)
  else
    .raw p

/-- The `connection` substate. -/
structure ConnectionSt where
  connected : Bool
  linkLayerReady : Bool
  lastMID : Option JsNum
  reconnecting : Bool
  reconnectAttempts : Nat
deriving DecidableEq, Repr

/-- The `protocol.subscriptions` substate. -/
structure Subscriptions where
  tighteningResults : Bool
  alarms : Bool
  multiSpindleStatus : Bool
deriving DecidableEq, Repr

/-- The `protocol` substate. -/
structure ProtocolSt where
  revision : ℚ
  subscriptions : Subscriptions
deriving DecidableEq, Repr

/-- The `controller` substate (`errorCode` is never assigned by the source
and stays `null`). -/
structure ControllerSt where
  ready : Bool
  errorActive : Bool
  errorCode : Option JsNum
  alarms : List Alarm
deriving DecidableEq, Repr

/-- The `tool` substate. -/
structure ToolSt where
  enabled : Bool
  running : Bool
  spindleCount : JsNum
  spindleCountSource : SpindleSource
deriving DecidableEq, Repr

/-- The `product` substate (`vin` is `null` initially, a string after
MID 0051). -/
structure ProductSt where
  vin : Option Str
  vinRequired : Bool
  vinValid : Bool
  vinLocked : Bool
deriving DecidableEq, Repr

/-- The `job` substate. -/
structure JobSt where
  jobId : Option JsNum
  paramSetId : Option JsNum
  active : Bool
  locked : Bool
deriving DecidableEq, Repr

/-- The `batch` substate. -/
structure BatchSt where
  batchId : Option JsNum
  size : Option JsNum
  counter : JsNum
  active : Bool
  complete : Bool
  locked : Bool
  pendingReset : Bool
deriving DecidableEq, Repr

/-- The ephemeral `tightening` substate.  `pendingSpindles` is the JS `Map`
keyed by spindle number; `watchdogArmed` is true exactly while the watchdog
`setTimeout` stored in `tightening.watchdog` is live (armed and not yet
fired or cleared). -/
structure TighteningSt where
  inProgress : Bool
  cycleStartTs : Option ℚ
  pendingSpindles : List (JsNum × TRes)
  watchdogArmed : Bool
deriving DecidableEq, Repr

/-- The full state tree of `createInitialState()`.  `pendingCommands` is the
JS `Map` from command id to its pending entry; only the MID is consulted
after creation (the stored timestamp and timer handle are dead data /
modelled by the timeout step), so entries are `(cmdId, mid)` pairs in
insertion order. -/
structure NState where
  connection : ConnectionSt
  protocol : ProtocolSt
  controller : ControllerSt
  tool : ToolSt
  product : ProductSt
  job : JobSt
  batch : BatchSt
  tightening : TighteningSt
  pendingCommands : List (Nat × Nat)
deriving DecidableEq, Repr

/-- Embedding of `createInitialState()`. -/
def createInitialState : NState :=
  { connection :=
      { connected := false, linkLayerReady := false, lastMID := none
        reconnecting := false, reconnectAttempts := 0 }
    protocol :=
      { revision := 1
        subscriptions :=
          { tighteningResults := false, alarms := false, multiSpindleStatus := false } }
    controller := { ready := false, errorActive := false, errorCode := none, alarms := [] }
    tool :=
      { enabled := false, running := false, spindleCount := .num 1
        spindleCountSource := .default }
    product := { vin := none, vinRequired := false, vinValid := false, vinLocked := false }
    job := { jobId := none, paramSetId := none, active := false, locked := false }
    batch :=
      { batchId := none, size := none, counter := .num 0, active := false
        complete := false, locked := false, pendingReset := false }
    tightening :=
      { inProgress := false, cycleStartTs := none, pendingSpindles := []
        watchdogArmed := false }
    pendingCommands := [] }

/-- The client object: the state tree plus the constructor configuration and
instance fields the claims depend on.  `configuredSpindleCount` is the
`spindleCount` constructor option; the socket, buffer and timers live in the
transition system around this record. -/
structure Client where
  st : NState
  commandSeq : Nat
  lastCommandId : Option Nat
  allowDuplicateCommands : Bool
  autoReconnect : Bool
  configuredSpindleCount : Option JsNum
deriving DecidableEq, Repr

/-- A fresh client (constructor + `createInitialState`). -/
def initClient (allowDup : Bool) (cfgSpindle : Option JsNum) : Client :=
  { st := createInitialState
    commandSeq := 0
    lastCommandId := none
    allowDuplicateCommands := allowDup
    autoReconnect := true
    configuredSpindleCount := cfgSpindle }

/-- The interlock error codes of `_check`. -/
inductive InterlockCode where
  | NOT_CONNECTED
  | LINK_NOT_READY
  | TOOL_DISABLED
  | TOOL_RUNNING
  | CTRL_NOT_READY
  | ALARM_ACTIVE
  | VIN_REQUIRED
  | JOB_NOT_ACTIVE
deriving DecidableEq, Repr

/-- A thrown JS error: an `InterlockError` (with its code), a `CommandError`
(with its MID), or a plain `Error` (validation failures). -/
inductive JsErr where
  | interlock (code : InterlockCode)
  | command (mid : Nat)
  | plain (msg : Str)
deriving DecidableEq, Repr

/-- Events emitted by the client, with the payload components the claims
examine. -/
inductive Event where
  | connectedEv
  | disconnectedEv
  | reconnectingEv (attempt : Nat)
  | linkEstablished (revision : ℚ)
  | commandAccepted (mid : JsNum)
  | commandErrorEv (failedMid : JsNum)
  | commandSuccess (mid : JsNum) (cmdId : Nat)
  | commandFailed (mid : JsNum) (cmdId : Nat)
  | commandTimeout (mid : Nat) (cmdId : Nat)
  | commandAborted (mid : Nat) (cmdId : Nat)
  | batchResetConfirmed
  | batchResetFailed
  | jobSelected (jobId : JsNum)
  | vinRequiredEv
  | vinLocked (vin : Str)
  | batchStarted
  | batchProgress (counter : JsNum)
  | batchCompleted
  | alarmEv (a : Alarm)
  | alarmStatusEv (alarmStatus : Bool)
  | spindleCountUpdated (count : JsNum) (source : SpindleSource)
  | spindleResult (r : TRes)
  | tighteningCycleStarted (timestamp : ℚ)
  | tighteningCycleCompleted (results : List TRes) (overallOk : Bool)
  | tighteningIncomplete (expected : JsNum) (received : Nat)
  | multiSpindleCycleComplete
  | stateChanged
  | parseErrorEv
deriving DecidableEq, Repr

/-- Embedding of the frame construction inside `sendMID`: 4-digit MID, the
header rest `rev(3) noAck(1) station(2) spindle(2) spare(4)` and the payload,
prefixed by the 4-digit total length `body.length + 4`. -/
def encodeFrame (mid : Nat) (payload : Str) (expectAck : Bool) : Str :=
  let midStr := padStart 4 '0' (natToStr mid)
  let noAck : Char := if expectAck then '0' else '1'
  let headerRest := ['0', '0', '1', noAck, '0', '1', '0', '1', ' ', ' ', ' ', ' ']
  let body := midStr ++ headerRest ++ payload
  padStart 4 '0' (natToStr (body.length + 4)) ++ body

/-- Result of a `sendMID` call: the (possibly updated) client, the bytes
written to the socket, the thrown error if any, and the returned
`_lastCommandId`. -/
structure SendR where
  cli : Client
  writes : List Str
  exn : Option JsErr
  ret : Option Nat
deriving DecidableEq, Repr

/-- Embedding of `sendMID`: the one-per-MID guard, pending-entry creation
(with a live timeout timer, modelled by the entry's presence) and the socket
write. -/
def sendMID (c : Client) (mid : Nat) (payload : Str) (expectAck : Bool) : SendR :=
  if expectAck && !c.allowDuplicateCommands
      && c.st.pendingCommands.any (fun e => e.2 = mid) then
    { cli := c, writes := [], exn := some (.command mid), ret := none }
  else
    let frame := encodeFrame mid payload expectAck
    if expectAck then
      let cmdId := c.commandSeq + 1
      let c1 : Client :=
        { c with
          commandSeq := cmdId
          lastCommandId := some cmdId
          st := { c.st with pendingCommands := c.st.pendingCommands ++ [(cmdId, mid)] } }
      { cli := c1, writes := [frame], exn := none, ret := some cmdId }
    else
      { cli := c, writes := [frame], exn := none, ret := c.lastCommandId }

/-- The command name literal `'startTightening'` compared in `_check`. -/
def startTighteningName : Str := "startTightening".toList

/-- Embedding of `_check(cmd)`: `none` if every interlock passes, otherwise
the code of the first `InterlockError` thrown, in source order. -/
def check (s : NState) (cmd : Str) : Option InterlockCode :=
  if !s.connection.connected then some .NOT_CONNECTED
  else if !s.connection.linkLayerReady then some .LINK_NOT_READY
  else if cmd = startTighteningName then
    if !s.tool.enabled then some .TOOL_DISABLED
    else if s.tool.running then some .TOOL_RUNNING
    else if !s.controller.ready then some .CTRL_NOT_READY
    else if s.controller.errorActive then some .ALARM_ACTIVE
    else if s.product.vinRequired && !s.product.vinValid then some .VIN_REQUIRED
    else if !s.job.active then some .JOB_NOT_ACTIVE
    else none
  else none

/-- JS truthiness of `product.vin` (`null` and the empty string are falsy). -/
def jsTruthyStr : Option Str → Bool
  | none => false
  | some s => s ≠ []

/-- Embedding of `Map.prototype.set` on `pendingSpindles`: replace in place
when the key exists (insertion order kept), otherwise append. -/
def mapSet (m : List (JsNum × TRes)) (k : JsNum) (v : TRes) : List (JsNum × TRes) :=
  match m with
  | [] => [(k, v)]
  | e :: rest => if e.1 = k then (k, v) :: rest else e :: mapSet rest k v

/-- Remove the first pending command whose MID equals the given JS number,
returning the remaining table and the removed entry
(`_resolvePendingCommand`'s scan). -/
def removeFirstMid (pending : List (Nat × Nat)) (mid : JsNum) :
    List (Nat × Nat) × Option (Nat × Nat) :=
  match pending with
  | [] => ([], none)
  | e :: rest =>
      if JsNum.num (e.2 : ℚ) = mid then (rest, some e)
      else
        let r := removeFirstMid rest mid
        (e :: r.1, r.2)

/-- Embedding of `_resolvePendingCommand(mid, success)`. -/
def resolvePendingCommand (c : Client) (mid : JsNum) (success : Bool) :
    Client × List Event :=
  let r := removeFirstMid c.st.pendingCommands mid
  match r.2 with
  | none => (c, [])
  | some e =>
      ({ c with st := { c.st with pendingCommands := r.1 } },
       [if success then .commandSuccess mid e.1 else .commandFailed mid e.1])

/-- Embedding of `_clearPendingCommands`. -/
def clearPendingCommands (c : Client) : Client × List Event :=
  ({ c with st := { c.st with pendingCommands := [] } },
   c.st.pendingCommands.map (fun e => .commandAborted e.2 e.1))

/-- Embedding of `_startTighteningCycle` (including `_startWatchdog`, whose
net effect is a live watchdog timer). -/
def startTighteningCycle (c : Client) (now : ℚ) : Client × List Event :=
  ({ c with
      st := { c.st with
        tightening := { c.st.tightening with
          inProgress := true, cycleStartTs := some now, watchdogArmed := true } } },
   [.tighteningCycleStarted now])

/-- Embedding of `_handleTighteningResult`.  Total in the model (JS string
and `Map` operations cannot throw here); the `try/finally` around it in
`_handleMID` is embedded by `ackResultFinally` below, which also covers the
exceptional outcomes the source guards against. -/
def handleTighteningResult (c : Client) (now : ℚ) (d : TRes) : Client × List Event :=
  let st0 := c.st
  let vinHit := !st0.product.vinLocked && jsTruthyStr st0.product.vin
  let st1 :=
    if vinHit then { st0 with product := { st0.product with vinLocked := true } } else st0
  let evs1 : List Event := if vinHit then [.vinLocked (st0.product.vin.getD [])] else []
  let detect :=
    st1.tool.spindleCountSource = SpindleSource.default
      ∧ d.spindle.gtB st1.tool.spindleCount = true
  let st2 :=
    if detect then
      { st1 with tool := { st1.tool with
          spindleCount := d.spindle, spindleCountSource := .mid061 } }
    else st1
  let evs2 := evs1 ++ (if detect then [Event.spindleCountUpdated d.spindle .mid061] else [])
  let evs3 := evs2 ++ [Event.spindleResult d]
  let ps := mapSet st2.tightening.pendingSpindles d.spindle d
  let st3 := { st2 with tightening := { st2.tightening with pendingSpindles := ps } }
  if jsNatLt ps.length st3.tool.spindleCount then
    ({ c with st := st3 }, evs3)
  else
    let results := ps.map Prod.snd
    let overallOk := results.all (·.ok)
    let st4 := { st3 with tightening := { st3.tightening with
      watchdogArmed := false, pendingSpindles := [], inProgress := false } }
    let duration := now - (st4.tightening.cycleStartTs.getD 0)
    if st4.batch.active && !st4.batch.complete then
      let cnt := st4.batch.counter.inc
      let reach := jsGeOptNull cnt st4.batch.size
      let st5 := { st4 with batch := { st4.batch with
        counter := cnt
        complete := if reach then true else st4.batch.complete
        active := if reach then false else st4.batch.active } }
      let evs4 := evs3 ++ [Event.batchProgress cnt]
        ++ (if reach then [Event.batchCompleted] else [])
      ({ c with st := st5 }, evs4 ++ [Event.tighteningCycleCompleted results overallOk])
    else
      ({ c with st := st4 }, evs3 ++ [Event.tighteningCycleCompleted results overallOk])

/-- Embedding of the watchdog timer callback in `_startWatchdog` (fires only
while the timer is live; firing consumes it). -/
def watchdogFire (c : Client) : Client × List Event :=
  if c.st.tightening.watchdogArmed then
    let collected := c.st.tightening.pendingSpindles.map Prod.snd
    ({ c with st := { c.st with tightening := { c.st.tightening with
        inProgress := false, pendingSpindles := [], watchdogArmed := false } } },
     [.tighteningIncomplete c.st.tool.spindleCount collected.length])
  else (c, [])

/-- Outcome of a handler or step: updated client, emitted events, socket
writes, and the error it threw (if any — partial mutations persist, as in
JS). -/
structure MOut where
  cli : Client
  events : List Event
  writes : List Str
  exn : Option JsErr
deriving DecidableEq, Repr

/-- Embedding of the `try { this._handleTighteningResult(d) } finally
{ this.sendMID(62) }` block of `_handleMID` cases 61/65: `body` is the
aggregation outcome — the (possibly partially) mutated client, its events,
and the error it raised if any — and the MID 0062 ACK is sent in every
case.  `sendMID(62)` expects no ACK, so the one-per-MID guard cannot throw
here. -/
def ackResultFinally (body : Client × List Event × Option JsErr) : MOut :=
  let s := sendMID body.1 62 [] false
  { cli := s.cli, events := body.2.1, writes := s.writes, exn := body.2.2 }

/-- Marks the end of `_handleMID`'s switch: the trailing
`this.emit('stateChanged', this.getState())` runs only when no exception
escaped the switch. -/
def finishOk (cli : Client) (events : List Event) (writes : List Str) : MOut :=
  { cli := cli, events := events ++ [.stateChanged], writes := writes, exn := none }

/-- Embedding of `_handleMID`.  The `switch (mid)` is a match on the parsed
message, whose constructor `_parseMID` puts in correspondence with the MID
(cases 2/3 and 61/65 share a handler in the source exactly as they share a
constructor here). -/
def handleMID (c0 : Client) (mid : JsNum) (d : Parsed) (now : ℚ) : MOut :=
  let c := { c0 with st := { c0.st with
    connection := { c0.st.connection with lastMID := some mid } } }
  match d with
  | .commStartAck rev =>
      let c1 := { c with st := { c.st with
        protocol := { c.st.protocol with revision := rev }
        connection := { c.st.connection with linkLayerReady := true } } }
      let evs := [Event.linkEstablished rev]
      let s1 := sendMID c1 60 [] true
      match s1.exn with
      | some e => { cli := s1.cli, events := evs, writes := s1.writes, exn := some e }
      | none =>
          let c2 := { s1.cli with st := { s1.cli.st with
            protocol := { s1.cli.st.protocol with
              subscriptions := { s1.cli.st.protocol.subscriptions with
                tighteningResults := true } } } }
          let s2 := sendMID c2 70 [] true
          match s2.exn with
          | some e =>
              { cli := s2.cli, events := evs, writes := s1.writes ++ s2.writes, exn := some e }
          | none =>
              let c3 := { s2.cli with st := { s2.cli.st with
                protocol := { s2.cli.st.protocol with
                  subscriptions := { s2.cli.st.protocol.subscriptions with
                    alarms := true } } } }
              finishOk c3 evs (s1.writes ++ s2.writes)
  | .cmdError failedMid errorCode message =>
      let r := resolvePendingCommand c failedMid false
      let evs := r.2 ++ [Event.commandErrorEv failedMid]
      if r.1.st.batch.pendingReset then
        finishOk
          { r.1 with st := { r.1.st with
            batch := { r.1.st.batch with pendingReset := false } } }
          (evs ++ [Event.batchResetFailed]) []
      else finishOk r.1 evs []
  | .cmdAccepted acceptedMid =>
      let r := resolvePendingCommand c acceptedMid true
      let evs := r.2 ++ [Event.commandAccepted acceptedMid]
      if r.1.st.batch.pendingReset ∧ acceptedMid = .num 20 then
        finishOk
          { r.1 with st := { r.1.st with
            batch := { r.1.st.batch with
              counter := .num 0, complete := false, pendingReset := false } } }
          (evs ++ [Event.batchResetConfirmed]) []
      else finishOk r.1 evs []
  | .paramSetReply pid =>
      finishOk { c with st := { c.st with job := { c.st.job with paramSetId := some pid } } }
        [] []
  | .batchDecAck bc =>
      finishOk { c with st := { c.st with batch := { c.st.batch with counter := bc } } } [] []
  | .toolStatus controllerReady toolEnabled toolRunning alarmActive =>
      let c1 := { c with st := { c.st with
        controller := { c.st.controller with
          ready := controllerReady, errorActive := alarmActive }
        tool := { c.st.tool with enabled := toolEnabled, running := toolRunning } } }
      if toolRunning && !c1.st.tightening.inProgress then
        let r := startTighteningCycle c1 now
        finishOk r.1 r.2 []
      else finishOk c1 [] []
  | .vinReply vin =>
      finishOk { c with st := { c.st with
        product := { c.st.product with vin := some vin, vinValid := true } } } [] []
  | .vinRequiredMsg =>
      finishOk { c with st := { c.st with
        product := { c.st.product with vinRequired := true } } } [Event.vinRequiredEv] []
  | .jobReply jid =>
      finishOk { c with st := { c.st with
        job := { c.st.job with jobId := some jid, active := true, locked := true }
        product := { c.st.product with vinLocked := false } } }
        [Event.jobSelected jid] []
  | .batchReply bid bsize bcounter =>
      finishOk { c with st := { c.st with
        batch :=
          { batchId := some bid, size := some bsize, counter := bcounter
            active := true, complete := false, locked := true, pendingReset := false }
        product := { c.st.product with vinLocked := false } } }
        [Event.batchStarted] []
  | .result r =>
      let b := handleTighteningResult c now r
      let m := ackResultFinally (b.1, b.2, none)
      match m.exn with
      | some _ => m
      | none => { m with events := m.events ++ [Event.stateChanged] }
  | .alarmMsg a =>
      finishOk { c with st := { c.st with
        controller := { c.st.controller with
          alarms := c.st.controller.alarms ++ [a], errorActive := true } } }
        [Event.alarmEv a] []
  | .alarmStatusMsg alarmStatus currentAlarms =>
      let c1 :=
        if !alarmStatus then
          { c with st := { c.st with
            controller := { c.st.controller with alarms := [], errorActive := false } } }
        else c
      finishOk c1 [Event.alarmStatusEv alarmStatus] []
  | .multiSpindle cycleId spindleCount overallOk timestamp =>
      if (c.st.tool.spindleCountSource ≠ SpindleSource.config
            ∧ c.st.tool.spindleCountSource ≠ SpindleSource.manual)
          ∧ spindleCount.gtB (.num 0) = true then
        finishOk { c with st := { c.st with
          tool := { c.st.tool with
            spindleCount := spindleCount, spindleCountSource := .mid101 } } }
          [Event.spindleCountUpdated spindleCount .mid101, Event.multiSpindleCycleComplete]
          []
      else finishOk c [Event.multiSpindleCycleComplete] []
  | .raw p => finishOk c [] []

/-- Lift a `sendMID` result into a step outcome (operator commands emit no
events of their own). -/
def sendOut (s : SendR) : MOut :=
  { cli := s.cli, events := [], writes := s.writes, exn := s.exn }

/-- A transition of the client: an inbound decoded frame, a timer expiry, a
socket lifecycle callback, or a public API call.  Timer steps are enabled by
the corresponding liveness flag and are no-ops otherwise. -/
inductive Step where
  | connectOk
  | socketClosed
  | scheduleReconnect
  | recvFrame (mid : JsNum) (payload : Str) (now : ℚ)
  | watchdogTimeout
  | cmdTimeout (cmdId : Nat)
  | opStartTightening
  | opSelectJob (jobId : Nat)
  | opSelectParameterSet (paramSetId : Nat)
  | opDownloadVIN (vin : Str)
  | opEnableTool
  | opDisableTool
  | opResetBatch
  | opDecrementBatch
  | opAcknowledgeAlarm
  | opSubscribeTighteningResults
  | opUnsubscribeTighteningResults
  | opSubscribeAlarms
  | opUnsubscribeAlarms
  | opSetSpindleCount (count : JsNum)
  | opDisconnect
deriving DecidableEq, Repr

/-- Embedding of the body of the `_onData` loop for one complete frame: parse
the MID's payload, route it through `_handleMID`, and catch any thrown error
as a `parseError` emission (the partially mutated state persists). -/
def recvFrameStep (c : Client) (mid : JsNum) (payload : Str) (now : ℚ) : MOut :=
  let d := parseMID c.st.protocol.revision mid payload
  let m := handleMID c mid d now
  match m.exn with
  | some _ => { m with exn := none, events := m.events ++ [Event.parseErrorEv] }
  | none => m

/-- The transition function.  `connectOk` is the success callback of
`connect()`; `socketClosed` is `_onClose` (reconnect scheduling is the
separate `scheduleReconnect` step); the heartbeat tick mutates no modelled
state and is omitted. -/
def stepf (c : Client) (s : Step) : MOut :=
  match s with
  | .connectOk =>
      if c.st.connection.connected then
        { cli := c, events := [], writes := [], exn := none }
      else
        let st1 := { c.st with connection := { c.st.connection with
          connected := true, reconnecting := false, reconnectAttempts := 0 } }
        let st2 :=
          match c.configuredSpindleCount with
          | some q => { st1 with tool := { st1.tool with
              spindleCount := q, spindleCountSource := .config } }
          | none => st1
        let s1 := sendMID { c with st := st2 } 1 [] false
        { cli := s1.cli, events := [Event.connectedEv], writes := s1.writes, exn := none }
  | .socketClosed =>
      let c1 := { c with st := { c.st with
        tightening := { c.st.tightening with watchdogArmed := false } } }
      let r := clearPendingCommands c1
      let c2 := { r.1 with st := { r.1.st with
        connection := { r.1.st.connection with
          connected := false, linkLayerReady := false } } }
      { cli := c2, events := r.2 ++ [Event.disconnectedEv], writes := [], exn := none }
  | .scheduleReconnect =>
      let n := c.st.connection.reconnectAttempts + 1
      { cli := { c with st := { c.st with connection := { c.st.connection with
          reconnecting := true, reconnectAttempts := n } } }
        events := [Event.reconnectingEv n], writes := [], exn := none }
  | .recvFrame mid payload now => recvFrameStep c mid payload now
  | .watchdogTimeout =>
      let r := watchdogFire c
      { cli := r.1, events := r.2, writes := [], exn := none }
  | .cmdTimeout cmdId =>
      match c.st.pendingCommands.find? (fun e => e.1 = cmdId) with
      | some e =>
          { cli := { c with st := { c.st with
              pendingCommands := c.st.pendingCommands.filter (fun x => x.1 ≠ cmdId) } }
            events := [Event.commandTimeout e.2 cmdId], writes := [], exn := none }
      | none => { cli := c, events := [], writes := [], exn := none }
  | .opStartTightening =>
      match check c.st startTighteningName with
      | some code => { cli := c, events := [], writes := [], exn := some (.interlock code) }
      | none => sendOut (sendMID c 43 [] true)
  | .opSelectJob jobId =>
      sendOut (sendMID c 34 (padStart 4 '0' (natToStr jobId)) true)
  | .opSelectParameterSet paramSetId =>
      sendOut (sendMID c 18 (padStart 3 '0' (natToStr paramSetId)) true)
  | .opDownloadVIN vin =>
      if vin.length > 25 then
        { cli := c, events := [], writes := []
          exn := some (.plain ("VIN exceeds 25 characters".toList)) }
      else sendOut (sendMID c 50 (padEnd 25 ' ' vin) true)
  | .opEnableTool => sendOut (sendMID c 42 [] true)
  | .opDisableTool => sendOut (sendMID c 45 [] true)
  | .opResetBatch =>
      let c1 := { c with st := { c.st with
        batch := { c.st.batch with pendingReset := true } } }
      sendOut (sendMID c1 20 [] true)
  | .opDecrementBatch => sendOut (sendMID c 21 [] true)
  | .opAcknowledgeAlarm => sendOut (sendMID c 78 [] true)
  | .opSubscribeTighteningResults =>
      let s1 := sendMID c 60 [] true
      match s1.exn with
      | some e => { cli := s1.cli, events := [], writes := s1.writes, exn := some e }
      | none =>
          { cli := { s1.cli with st := { s1.cli.st with
              protocol := { s1.cli.st.protocol with
                subscriptions := { s1.cli.st.protocol.subscriptions with
                  tighteningResults := true } } } }
            events := [], writes := s1.writes, exn := none }
  | .opUnsubscribeTighteningResults =>
      let s1 := sendMID c 63 [] false
      { cli := { s1.cli with st := { s1.cli.st with
          protocol := { s1.cli.st.protocol with
            subscriptions := { s1.cli.st.protocol.subscriptions with
              tighteningResults := false } } } }
        events := [], writes := s1.writes, exn := none }
  | .opSubscribeAlarms =>
      let s1 := sendMID c 70 [] true
      match s1.exn with
      | some e => { cli := s1.cli, events := [], writes := s1.writes, exn := some e }
      | none =>
          { cli := { s1.cli with st := { s1.cli.st with
              protocol := { s1.cli.st.protocol with
                subscriptions := { s1.cli.st.protocol.subscriptions with
                  alarms := true } } } }
            events := [], writes := s1.writes, exn := none }
  | .opUnsubscribeAlarms =>
      let s1 := sendMID c 73 [] false
      { cli := { s1.cli with st := { s1.cli.st with
          protocol := { s1.cli.st.protocol with
            subscriptions := { s1.cli.st.protocol.subscriptions with
              alarms := false } } } }
        events := [], writes := s1.writes, exn := none }
  | .opSetSpindleCount count =>
      if count.ltB (.num 1) || count.gtB (.num 99) then
        { cli := c, events := [], writes := []
          exn := some (.plain ("Spindle count must be between 1 and 99".toList)) }
      else
        { cli := { c with st := { c.st with tool := { c.st.tool with
            spindleCount := count, spindleCountSource := .manual } } }
          events := [Event.spindleCountUpdated count .manual], writes := [], exn := none }
  | .opDisconnect =>
      let c1 := { c with autoReconnect := false }
      let s1 := sendMID c1 2 [] false
      { cli := s1.cli, events := [], writes := s1.writes, exn := none }

/-- Run a list of steps, accumulating all emitted events. -/
def runSteps (c : Client) : List Step → Client × List Event
  | [] => (c, [])
  | s :: rest =>
      let m := stepf c s
      let r := runSteps m.cli rest
      (r.1, m.events ++ r.2)

/-- Clients reachable from a fresh instance by any sequence of steps. -/
inductive Reachable : Client → Prop where
  | init (allowDup : Bool) (cfg : Option JsNum) : Reachable (initClient allowDup cfg)
  | step (c : Client) (s : Step) (h : Reachable c) : Reachable (stepf c s).cli

/-- A decoded frame as `_onData` produces it: the body after the 4-digit
length prefix, the MID parsed from its first four characters, and the
payload from body index 16. -/
structure DecFrame where
  body : Str
  mid : JsNum
  payload : Str
deriving DecidableEq, Repr

/-- The `frameError` emissions of `_onData`. -/
inductive FrameErr where
  | invalidLength
  | lengthOutOfRange (length : Nat)
deriving DecidableEq, Repr

/-- Output of the `_onData` consumption loop: the complete frames delivered
to `_parseMID`/`_handleMID`, the frame errors emitted, and the bytes left in
the buffer. -/
structure DecOut where
  frames : List DecFrame
  errors : List FrameErr
  rest : Str
deriving DecidableEq, Repr

/-- Embedding of the `while` loop of `_onData` under the default
`validateFrames = true` configuration (NUL stripping is `stripNul`, applied
by the caller when bytes arrive).  The length is validated to be four
decimal digits before numeric use, so `parseInt(lenStr, 10)` equals
`digitsToNat lenStr` here (theorem `jsParseInt_digits`). -/
def onDataLoopF : Nat → Str → DecOut
  | 0, buffer => { frames := [], errors := [], rest := buffer }
  | fuel + 1, buffer =>
      if buffer.length < 4 then { frames := [], errors := [], rest := buffer }
      else
        let lenStr := jsSlice buffer 0 4
        if ¬(lenStr.all Char.isDigit = true) then
          let r := onDataLoopF fuel (buffer.drop 1)
          { frames := r.frames, errors := .invalidLength :: r.errors, rest := r.rest }
        else
          let len := digitsToNat (jsSlice buffer 0 4)
          if len < 20 ∨ len > 9999 then
            let r := onDataLoopF fuel (buffer.drop 1)
            { frames := r.frames, errors := .lengthOutOfRange len :: r.errors, rest := r.rest }
          else if buffer.length < len then
            { frames := [], errors := [], rest := buffer }
          else
            let frame := jsSlice buffer 4 len
            let mid := jsParseInt (jsSlice frame 0 4)
            let payload := jsSliceFrom frame 16
            let r := onDataLoopF fuel (buffer.drop len)
            { frames := { body := frame, mid := mid, payload := payload } :: r.frames
              errors := r.errors, rest := r.rest }

/-- The loop entry point: every iteration consumes at least one character,
so `buffer.length` units of fuel always suffice, keeping the recursion
structural (and kernel-computable). -/
def onDataLoop (buffer : Str) : DecOut := onDataLoopF buffer.length buffer

/-- The JSON value universe produced by
`JSON.parse(JSON.stringify(this.state))`. -/
inductive JVal where
  | jnull
  | jbool (b : Bool)
  | jnum (q : ℚ)
  | jstr (s : Str)
  | jarr (elems : List JVal)
  | jobj (fields : List (Str × JVal))
deriving Repr

/-- JSON image of a JS number: `JSON.stringify` renders `NaN` as `null`. -/
def jsonOfNum : JsNum → JVal
  | .nan => .jnull
  | .num q => .jnum q

/-- JSON image of a nullable JS number field. -/
def jsonOfOptNum : Option JsNum → JVal
  | none => .jnull
  | some x => jsonOfNum x

/-- JSON image of a nullable string field. -/
def jsonOfOptStr : Option Str → JVal
  | none => .jnull
  | some s => .jstr s

/-- JSON image of a nullable plain number field (never `NaN` in the state). -/
def jsonOfOptQ : Option ℚ → JVal
  | none => .jnull
  | some q => .jnum q

/-- JSON image of a parsed alarm record. -/
def jsonOfAlarm (a : Alarm) : JVal :=
  .jobj
    [ ("alarmCode".toList, .jstr a.alarmCode)
    , ("controllerReady".toList, .jbool a.controllerReady)
    , ("toolReady".toList, .jbool a.toolReady)
    , ("timestamp".toList, .jstr a.timestamp)
    , ("message".toList, .jstr a.message) ]

/-- The string stored in `tool.spindleCountSource`. -/
def sourceName : SpindleSource → Str
  | .default => "default".toList
  | .mid101 => "mid101".toList
  | .mid061 => "mid061".toList
  | .config => "config".toList
  | .manual => "manual".toList

/-- The JSON tree `JSON.stringify(this.state)` builds when it does not
throw.  `JSON.stringify` serializes a `Map` (no enumerable own properties)
as the empty object, so `tightening.pendingSpindles` and `pendingCommands`
appear as `jobj []` whatever they contain, and renders `NaN` as `null`.
The `tightening.watchdog` slot then holds either `null` or a fired,
de-listed Node `Timeout` handle; its JSON image — `null`, or a
runtime-internal object owned by Node, not by this repository — is taken
as the parameter `wd` (a live handle instead makes `stringify` throw: see
`getState` below). -/
def getStateSnapshot (s : NState) (wd : JVal) : JVal :=
  .jobj
    [ ("connection".toList, .jobj
        [ ("connected".toList, .jbool s.connection.connected)
        , ("linkLayerReady".toList, .jbool s.connection.linkLayerReady)
        , ("lastMID".toList, jsonOfOptNum s.connection.lastMID)
        , ("reconnecting".toList, .jbool s.connection.reconnecting)
        , ("reconnectAttempts".toList, .jnum s.connection.reconnectAttempts) ])
    , ("protocol".toList, .jobj
        [ ("revision".toList, .jnum s.protocol.revision)
        , ("subscriptions".toList, .jobj
            [ ("tighteningResults".toList, .jbool s.protocol.subscriptions.tighteningResults)
            , ("alarms".toList, .jbool s.protocol.subscriptions.alarms)
            , ("multiSpindleStatus".toList, .jbool s.protocol.subscriptions.multiSpindleStatus) ]) ])
    , ("controller".toList, .jobj
        [ ("ready".toList, .jbool s.controller.ready)
        , ("errorActive".toList, .jbool s.controller.errorActive)
        , ("errorCode".toList, jsonOfOptNum s.controller.errorCode)
        , ("alarms".toList, .jarr (s.controller.alarms.map jsonOfAlarm)) ])
    , ("tool".toList, .jobj
        [ ("enabled".toList, .jbool s.tool.enabled)
        , ("running".toList, .jbool s.tool.running)
        , ("spindleCount".toList, jsonOfNum s.tool.spindleCount)
        , ("spindleCountSource".toList, .jstr (sourceName s.tool.spindleCountSource)) ])
    , ("product".toList, .jobj
        [ ("vin".toList, jsonOfOptStr s.product.vin)
        , ("vinRequired".toList, .jbool s.product.vinRequired)
        , ("vinValid".toList, .jbool s.product.vinValid)
        , ("vinLocked".toList, .jbool s.product.vinLocked) ])
    , ("job".toList, .jobj
        [ ("jobId".toList, jsonOfOptNum s.job.jobId)
        , ("paramSetId".toList, jsonOfOptNum s.job.paramSetId)
        , ("active".toList, .jbool s.job.active)
        , ("locked".toList, .jbool s.job.locked) ])
    , ("batch".toList, .jobj
        [ ("batchId".toList, jsonOfOptNum s.batch.batchId)
        , ("size".toList, jsonOfOptNum s.batch.size)
        , ("counter".toList, jsonOfNum s.batch.counter)
        , ("active".toList, .jbool s.batch.active)
        , ("complete".toList, .jbool s.batch.complete)
        , ("locked".toList, .jbool s.batch.locked)
        , ("pendingReset".toList, .jbool s.batch.pendingReset) ])
    , ("tightening".toList, .jobj
        [ ("inProgress".toList, .jbool s.tightening.inProgress)
        , ("cycleStartTs".toList, jsonOfOptQ s.tightening.cycleStartTs)
        , ("pendingSpindles".toList, .jobj [])
        , ("watchdog".toList, wd) ])
    , ("pendingCommands".toList, .jobj []) ]

/-- Embedding of `getState()`, i.e. `JSON.parse(JSON.stringify(this.state))`.
While the tightening watchdog is armed, `state.tightening.watchdog` holds a
live Node `Timeout`, a circular structure (its list links tie it into the
runtime's timer list), so `JSON.stringify` throws
`TypeError: Converting circular structure to JSON` and `getState()` raises
instead of returning.  Otherwise the slot holds `null` or a fired,
de-listed handle, whose runtime-owned JSON image is the parameter `wd`,
and `getState()` returns a fresh tree sharing no structure with the
internal state. -/
def getState (s : NState) (wd : JVal) : Except Str JVal :=
  if s.tightening.watchdogArmed then
    .error ("Converting circular structure to JSON".toList)
  else
    .ok (getStateSnapshot s wd)

/-- Field lookup in a JSON object. -/
def JVal.field (v : JVal) (key : Str) : Option JVal :=
  match v with
  | .jobj fields =>
      match fields.find? (fun f => f.1 = key) with
      | some f => some f.2
      | none => none
  | _ => none

/-! ## Claim C1: interlock order for `startTightening` -/

/-- Spec-side rule table: the eight `startTightening` preconditions in the
fixed order of the claim, each paired with its interlock error code. -/
def interlockRules : List ((NState → Bool) × InterlockCode) :=
  [ (fun s => s.connection.connected, .NOT_CONNECTED)
  , (fun s => s.connection.linkLayerReady, .LINK_NOT_READY)
  , (fun s => s.tool.enabled, .TOOL_DISABLED)
  , (fun s => !s.tool.running, .TOOL_RUNNING)
  , (fun s => s.controller.ready, .CTRL_NOT_READY)
  , (fun s => !s.controller.errorActive, .ALARM_ACTIVE)
  , (fun s => !s.product.vinRequired || s.product.vinValid, .VIN_REQUIRED)
  , (fun s => s.job.active, .JOB_NOT_ACTIVE) ]

/-- Spec-side: the code of the smallest-index violated rule, if any. -/
def firstViolatedRule (s : NState) : Option InterlockCode :=
  ((interlockRules.filter (fun r => !r.1 s)).head?).map Prod.snd

theorem check_eq_firstViolated (s : NState) :
    check s startTighteningName = firstViolatedRule s := by
  obtain ⟨cnn, prt, ctl, tl, pd, jb, bt, tg, pc⟩ := s
  obtain ⟨cn, ll, lm, rc, ra⟩ := cnn
  obtain ⟨en, run, sc, src⟩ := tl
  obtain ⟨vin, vreq, vval, vlock⟩ := pd
  obtain ⟨jid, pid, jact, jlock⟩ := jb
  obtain ⟨rdy, err, ec, al⟩ := ctl
  cases cn <;> cases ll <;> cases en <;> cases run <;> cases rdy <;> cases err <;>
    cases vreq <;> cases vval <;> cases jact <;> rfl

/-- C1: whenever at least one of the eight `startTightening` preconditions is
violated, `startTightening()` raises the interlock error carrying the code of
the smallest-index violated rule (in the fixed order connected, link-ready,
tool-enabled, not-running, controller-ready, no-alarm, VIN, job) and writes
no bytes to the socket. -/
theorem startTightening_interlock_order (c : Client) (code : InterlockCode)
    (h : firstViolatedRule c.st = some code) :
    (stepf c .opStartTightening).writes = []
      ∧ (stepf c .opStartTightening).exn = some (.interlock code) := by
  have hc : check c.st startTighteningName = some code :=
    (check_eq_firstViolated c.st).trans h
  simp [stepf, hc]

/-- Witness for C1 at a fresh (disconnected) client: the first violated rule
is rule 1 and `startTightening()` raises `NOT_CONNECTED` with no write. -/
theorem startTightening_interlock_order_witness :
    (stepf (initClient false none) .opStartTightening).writes = []
      ∧ (stepf (initClient false none) .opStartTightening).exn
          = some (.interlock .NOT_CONNECTED) :=
  startTightening_interlock_order (initClient false none) .NOT_CONNECTED (by rfl)

/-! ## Claim C2: interlocks on the other operator commands -/

/-- Whether a thrown error is an `InterlockError`. -/
def isInterlockErr : Option JsErr → Bool
  | some (.interlock _) => true
  | _ => false

/-- Spec-side: what rules 1-2 alone would decide. -/
def rules12Only (s : NState) : Option InterlockCode :=
  if !s.connection.connected then some .NOT_CONNECTED
  else if !s.connection.linkLayerReady then some .LINK_NOT_READY
  else none

theorem sendMID_exn_not_interlock (c : Client) (mid : Nat) (p : Str) (ack : Bool) :
    isInterlockErr (sendMID c mid p ack).exn = false := by
  simp only [sendMID]
  split
  · rfl
  · split <;> rfl

/-- C2 counterexample: on a fresh, disconnected client (`connected = false`),
`selectJob(123)` does not fail with `NOT_CONNECTED` before writing — it
throws nothing and writes a frame to the socket. -/
theorem selectJob_disconnected_writes :
    (initClient false none).st.connection.connected = false
      ∧ (stepf (initClient false none) (.opSelectJob 123)).exn = none
      ∧ (stepf (initClient false none) (.opSelectJob 123)).writes ≠ [] := by
  refine ⟨rfl, rfl, ?_⟩
  decide

/-- C2 amended: no operator command other than `startTightening` consults the
interlock gate at all — none of them can raise an interlock error (their only
synchronous failures are the one-per-MID `CommandError` and plain validation
errors) — while the gate function itself, for any command name other than
`'startTightening'`, tests exactly rules 1-2. -/
theorem other_commands_no_interlock :
    (∀ (c : Client) (j : Nat), isInterlockErr (stepf c (.opSelectJob j)).exn = false)
  ∧ (∀ (c : Client) (p : Nat), isInterlockErr (stepf c (.opSelectParameterSet p)).exn = false)
  ∧ (∀ (c : Client) (v : Str), isInterlockErr (stepf c (.opDownloadVIN v)).exn = false)
  ∧ (∀ c : Client, isInterlockErr (stepf c .opEnableTool).exn = false)
  ∧ (∀ c : Client, isInterlockErr (stepf c .opDisableTool).exn = false)
  ∧ (∀ c : Client, isInterlockErr (stepf c .opResetBatch).exn = false)
  ∧ (∀ c : Client, isInterlockErr (stepf c .opDecrementBatch).exn = false)
  ∧ (∀ c : Client, isInterlockErr (stepf c .opAcknowledgeAlarm).exn = false)
  ∧ (∀ c : Client, isInterlockErr (stepf c .opSubscribeTighteningResults).exn = false)
  ∧ (∀ c : Client, isInterlockErr (stepf c .opUnsubscribeTighteningResults).exn = false)
  ∧ (∀ c : Client, isInterlockErr (stepf c .opSubscribeAlarms).exn = false)
  ∧ (∀ c : Client, isInterlockErr (stepf c .opUnsubscribeAlarms).exn = false)
  ∧ (∀ (s : NState) (cmd : Str), cmd ≠ startTighteningName →
      check s cmd = rules12Only s) := by
  refine ⟨?_, ?_, ?_, ?_, ?_, ?_, ?_, ?_, ?_, ?_, ?_, ?_, ?_⟩
  · intro c j
    exact sendMID_exn_not_interlock _ 34 _ true
  · intro c p
    exact sendMID_exn_not_interlock _ 18 _ true
  · intro c v
    simp only [stepf]
    split
    · rfl
    · exact sendMID_exn_not_interlock _ 50 _ true
  · intro c
    exact sendMID_exn_not_interlock _ 42 _ true
  · intro c
    exact sendMID_exn_not_interlock _ 45 _ true
  · intro c
    exact sendMID_exn_not_interlock _ 20 _ true
  · intro c
    exact sendMID_exn_not_interlock _ 21 _ true
  · intro c
    exact sendMID_exn_not_interlock _ 78 _ true
  · intro c
    cases h : (sendMID c 60 [] true).exn with
    | none => simp [stepf, h, isInterlockErr]
    | some e =>
        simp only [stepf, h]
        have := sendMID_exn_not_interlock c 60 [] true
        rw [h] at this
        exact this
  · intro c
    simp [stepf, isInterlockErr]
  · intro c
    cases h : (sendMID c 70 [] true).exn with
    | none => simp [stepf, h, isInterlockErr]
    | some e =>
        simp only [stepf, h]
        have := sendMID_exn_not_interlock c 70 [] true
        rw [h] at this
        exact this
  · intro c
    simp [stepf, isInterlockErr]
  · intro s cmd hne
    simp [check, rules12Only, hne]

/-- Witness for C2's amended theorem at concrete inputs. -/
theorem other_commands_no_interlock_witness :
    isInterlockErr (stepf (initClient false none) (.opSelectJob 7)).exn = false
      ∧ check (initClient false none).st ("enableTool".toList)
          = rules12Only (initClient false none).st :=
  ⟨other_commands_no_interlock.1 (initClient false none) 7,
   other_commands_no_interlock.2.2.2.2.2.2.2.2.2.2.2.2 (initClient false none).st
     ("enableTool".toList) (by decide)⟩

/-! ## Claim C3: mandatory MID 0062 ACK for results -/

/-- Count the MID 0062 frames among a list of socket writes (the MID is the
wire characters 4-8, after the length prefix). -/
def countMid62 (ws : List Str) : Nat :=
  (ws.filter (fun w => jsSlice w 4 8 = ['0', '0', '6', '2'])).length

theorem sendMID62_writes (c : Client) :
    (sendMID c 62 [] false).writes = [encodeFrame 62 [] false] := by
  simp [sendMID]

theorem ackResultFinally_one_ack (body : Client × List Event × Option JsErr) :
    countMid62 (ackResultFinally body).writes = 1 := by
  simp only [ackResultFinally, sendMID62_writes]
  decide

theorem parseMID_at_61 (rev : ℚ) (p : Str) :
    parseMID rev (.num 61) p = .result (parse0061 rev p) := by
  norm_num [parseMID]

theorem parseMID_at_65 (rev : ℚ) (p : Str) :
    parseMID rev (.num 65) p = .result (parse0065 p) := by
  norm_num [parseMID]

theorem handleMID_result_writes (c : Client) (mid : JsNum) (r : TRes) (now : ℚ) :
    (handleMID c mid (.result r) now).writes = [encodeFrame 62 [] false]
      ∧ (handleMID c mid (.result r) now).exn = none := by
  simp [handleMID, ackResultFinally, sendMID62_writes]

/-- C3: every processed MID 0061/0065 result is acknowledged by exactly one
outbound MID 0062 frame.  The first conjunct covers the `try/finally`
embedding for an arbitrary aggregation outcome — including an exceptional
one — and the second computes the full inbound pipeline on any 0061/0065
frame: its writes are exactly one MID 0062 frame. -/
theorem result_always_acked :
    (∀ body : Client × List Event × Option JsErr,
        countMid62 (ackResultFinally body).writes = 1)
  ∧ (∀ (c : Client) (mid : JsNum) (payload : Str) (now : ℚ),
        mid = .num 61 ∨ mid = .num 65 →
        (stepf c (.recvFrame mid payload now)).writes = [encodeFrame 62 [] false]
          ∧ countMid62 (stepf c (.recvFrame mid payload now)).writes = 1) := by
  constructor
  · exact ackResultFinally_one_ack
  · intro c mid payload now hmid
    have hw : (stepf c (.recvFrame mid payload now)).writes = [encodeFrame 62 [] false] := by
      rcases hmid with rfl | rfl
      · simp only [stepf, recvFrameStep, parseMID_at_61]
        have h := handleMID_result_writes c (.num 61) (parse0061 c.st.protocol.revision payload) now
        rw [h.2]
        exact h.1
      · simp only [stepf, recvFrameStep, parseMID_at_65]
        have h := handleMID_result_writes c (.num 65) (parse0065 payload) now
        rw [h.2]
        exact h.1
    refine ⟨hw, ?_⟩
    rw [hw]
    decide

/-- Witness for C3, instantiating the first conjunct at an exceptional
aggregation outcome and the second at a concrete MID 0061 frame. -/
theorem result_always_acked_witness :
    countMid62 (ackResultFinally (initClient false none, [], some (.plain []))).writes = 1
      ∧ (stepf (initClient false none) (.recvFrame (.num 61) [] 0)).writes
          = [encodeFrame 62 [] false] :=
  ⟨result_always_acked.1 (initClient false none, [], some (.plain [])),
   (result_always_acked.2 (initClient false none) (.num 61) [] 0 (Or.inl rfl)).1⟩

/-! ## Claim C5: Revision 1 spindle number -/

/-- Spec-side (modelled from the spec): the wire frame's 2-byte spindle
header field.  In the source's header layout the spindle field occupies wire
bytes 14..16 (length 0..4, MID 4..8, revision 8..11, NoAck 11..12, station
12..14, spindle 14..16, spare 16..20). -/
def headerSpindleField (wire : Str) : Nat :=
  digitsToNat (jsSlice wire 14 16)

/-- C5 (code bug): `_parse0061` at revision 1 pins the spindle number to the
literal 1 for every payload — and `_onData` hands the parser only the payload
(body index 16 onward), so the header's spindle field cannot reach it.  At
the concrete revision-1 frame below, the header spindle field reads 2, yet
the decoded pipeline parses the result with spindle 1. -/
theorem rev1_spindle_is_literal_one :
    (∀ p : Str, (parse0061 1 p).spindle = .num 1)
  ∧ headerSpindleField ("0044006100100102    000000000100123400009011".toList) = 2
  ∧ (onDataLoop ("0044006100100102    000000000100123400009011".toList)).frames.map
        (fun f => (parse0061 1 f.payload).spindle) = [.num 1]
  ∧ (onDataLoop ("0044006100100102    000000000100123400009011".toList)).frames.map
        (fun f => f.mid) = [.num 61] := by
  refine ⟨?_, by decide, by decide, by decide⟩
  intro p
  simp [parse0061]

/-! ## Claim C4: batch reset protocol -/

theorem sendMID_batch (c : Client) (mid : Nat) (p : Str) (a : Bool) :
    (sendMID c mid p a).cli.st.batch = c.st.batch := by
  simp only [sendMID]
  split
  · rfl
  · split <;> rfl

theorem resolvePending_batch (c : Client) (mid : JsNum) (b : Bool) :
    (resolvePendingCommand c mid b).1.st.batch = c.st.batch := by
  simp only [resolvePendingCommand]
  split <;> rfl

/-- C4 counterexample: with `batch.counter = 5` and a `resetBatch()` pending
(`pending_reset = true`), a MID 0021 batch-decrement ACK arrives — no MID
0005 for 0020 was processed — and the counter changes from 5 to 3 while the
reset is still pending, refuting "batch.counter stays unchanged until a MID
0005 whose accepted_mid is 0020 arrives". -/
theorem counter_changes_before_reset_ack :
    ((runSteps (initClient false none)
        [.connectOk, .recvFrame (.num 31) ("000100100005".toList) 0,
         .opResetBatch]).1.st.batch.counter = .num 5
      ∧ (runSteps (initClient false none)
        [.connectOk, .recvFrame (.num 31) ("000100100005".toList) 0,
         .opResetBatch]).1.st.batch.pendingReset = true)
  ∧ ((runSteps (initClient false none)
        [.connectOk, .recvFrame (.num 31) ("000100100005".toList) 0,
         .opResetBatch, .recvFrame (.num 21) ("0003".toList) 0]).1.st.batch.counter = .num 3
      ∧ (runSteps (initClient false none)
        [.connectOk, .recvFrame (.num 31) ("000100100005".toList) 0,
         .opResetBatch, .recvFrame (.num 21) ("0003".toList) 0]).1.st.batch.pendingReset
          = true) := by
  decide

/-- C4 amended: the reset handshake itself never mutates the counter except
at its confirmation.  `resetBatch()` only marks `pending_reset`; a MID 0005
with `accepted_mid` 0020 while the reset is pending zeroes the counter,
clears `complete` and `pending_reset` and fires `batchResetConfirmed`; a MID
0004 while the reset is pending leaves the counter unchanged, clears
`pending_reset` and fires `batchResetFailed`; any other MID 0005 leaves the
counter unchanged.  (Unrelated traffic — MID 0021/0031 or a completed cycle
— can still change the counter while the reset is pending, which is what the
counterexample exhibits.) -/
theorem batch_reset_protocol (c : Client) (now : ℚ) :
    ((stepf c .opResetBatch).cli.st.batch.counter = c.st.batch.counter
      ∧ (stepf c .opResetBatch).cli.st.batch.complete = c.st.batch.complete
      ∧ (stepf c .opResetBatch).cli.st.batch.pendingReset = true)
  ∧ (c.st.batch.pendingReset = true →
      (handleMID c (.num 5) (.cmdAccepted (.num 20)) now).cli.st.batch.counter = .num 0
        ∧ (handleMID c (.num 5) (.cmdAccepted (.num 20)) now).cli.st.batch.complete = false
        ∧ (handleMID c (.num 5) (.cmdAccepted (.num 20)) now).cli.st.batch.pendingReset = false
        ∧ Event.batchResetConfirmed ∈ (handleMID c (.num 5) (.cmdAccepted (.num 20)) now).events)
  ∧ (c.st.batch.pendingReset = true → ∀ (fm ec : JsNum) (msg : Str),
      (handleMID c (.num 4) (.cmdError fm ec msg) now).cli.st.batch.counter
          = c.st.batch.counter
        ∧ (handleMID c (.num 4) (.cmdError fm ec msg) now).cli.st.batch.pendingReset = false
        ∧ Event.batchResetFailed ∈ (handleMID c (.num 4) (.cmdError fm ec msg) now).events)
  ∧ (∀ am : JsNum,
      (handleMID c (.num 5) (.cmdAccepted am) now).cli.st.batch.counter
          = c.st.batch.counter
        ∨ (c.st.batch.pendingReset = true ∧ am = .num 20
            ∧ (handleMID c (.num 5) (.cmdAccepted am) now).cli.st.batch.counter = .num 0)) := by
  have hb : (stepf c .opResetBatch).cli.st.batch
      = { c.st.batch with pendingReset := true } := by
    simp only [stepf, sendOut]
    rw [sendMID_batch]
  refine ⟨⟨by rw [hb], by rw [hb], by rw [hb]⟩, ?_, ?_, ?_⟩
  · intro h
    simp [handleMID, finishOk, resolvePending_batch, h]
  · intro h fm ec msg
    simp [handleMID, finishOk, resolvePending_batch, h]
  · intro am
    by_cases hp : c.st.batch.pendingReset = true
    · by_cases ha : am = JsNum.num 20
      · subst ha
        right
        exact ⟨hp, rfl, by simp [handleMID, finishOk, resolvePending_batch, hp]⟩
      · left
        simp [handleMID, finishOk, resolvePending_batch, hp, ha]
    · left
      simp [handleMID, finishOk, resolvePending_batch, hp]

/-- Witness for C4's amended theorem at a concrete client with a pending
reset and counter 5. -/
theorem batch_reset_protocol_witness :
    (handleMID
        { initClient false none with st := { (initClient false none).st with
            batch := { (initClient false none).st.batch with
              pendingReset := true, counter := .num 5 } } }
        (.num 5) (.cmdAccepted (.num 20)) 0).cli.st.batch.counter = .num 0
      ∧ (handleMID
        { initClient false none with st := { (initClient false none).st with
            batch := { (initClient false none).st.batch with
              pendingReset := true, counter := .num 5 } } }
        (.num 5) (.cmdAccepted (.num 20)) 0).cli.st.batch.pendingReset = false :=
  ⟨((batch_reset_protocol _ 0).2.1 rfl).1, ((batch_reset_protocol _ 0).2.1 rfl).2.2.1⟩

/-! ## Claim C7: one pending command per MID -/

/-- Number of pending-command entries for a given MID. -/
def countPendingMid (pending : List (Nat × Nat)) (mid : Nat) : Nat :=
  (pending.filter (fun e => e.2 = mid)).length

theorem countPendingMid_append (l : List (Nat × Nat)) (e : Nat × Nat) (mid : Nat) :
    countPendingMid (l ++ [e]) mid
      = countPendingMid l mid + (if e.2 = mid then 1 else 0) := by
  simp only [countPendingMid, List.filter_append, List.length_append]
  congr 1
  split
  · next hp => simp [List.filter, hp]
  · next hp => simp [List.filter, hp]

theorem countPendingMid_zero_of_not_any (l : List (Nat × Nat)) (m : Nat)
    (h : l.any (fun e => e.2 = m) = false) : countPendingMid l m = 0 := by
  simp only [List.any_eq_false, decide_eq_true_eq] at h
  simp only [countPendingMid, List.length_eq_zero]
  exact List.filter_eq_nil.mpr (by intro a ha; simpa using h a ha)

theorem any_eq_false_of_countPendingMid_zero (l : List (Nat × Nat)) (m : Nat)
    (h : countPendingMid l m = 0) : l.any (fun e => e.2 = m) = false := by
  simp only [countPendingMid, List.length_eq_zero, List.filter_eq_nil] at h
  simp only [List.any_eq_false]
  intro e he
  simpa using h e he

theorem countPendingMid_le_of_sublist (l' l : List (Nat × Nat))
    (h : l'.Sublist l) (mid : Nat) :
    countPendingMid l' mid ≤ countPendingMid l mid :=
  (h.filter _).length_le

theorem removeFirstMid_sublist (l : List (Nat × Nat)) (m : JsNum) :
    (removeFirstMid l m).1.Sublist l := by
  induction l with
  | nil => simp [removeFirstMid]
  | cons e rest ih =>
    simp only [removeFirstMid]
    split
    · exact List.sublist_cons_self e rest
    · exact List.Sublist.cons₂ e ih

theorem resolvePending_sublist (c : Client) (mid : JsNum) (b : Bool) :
    (resolvePendingCommand c mid b).1.st.pendingCommands.Sublist c.st.pendingCommands := by
  simp only [resolvePendingCommand]
  split
  · exact List.Sublist.refl _
  · exact removeFirstMid_sublist _ _

theorem resolvePending_allowDup (c : Client) (mid : JsNum) (b : Bool) :
    (resolvePendingCommand c mid b).1.allowDuplicateCommands
      = c.allowDuplicateCommands := by
  simp only [resolvePendingCommand]
  split <;> rfl

theorem sendMID_allowDup (c : Client) (m : Nat) (p : Str) (a : Bool) :
    (sendMID c m p a).cli.allowDuplicateCommands = c.allowDuplicateCommands := by
  simp only [sendMID]
  split
  · rfl
  · split <;> rfl

theorem sendMID_count_le (c : Client) (m : Nat) (p : Str) (a : Bool)
    (h : ∀ mid, countPendingMid c.st.pendingCommands mid ≤ 1)
    (hdup : c.allowDuplicateCommands = false) :
    ∀ mid, countPendingMid (sendMID c m p a).cli.st.pendingCommands mid ≤ 1 := by
  intro mid
  unfold sendMID
  split
  · exact h mid
  · next hguard =>
    split
    · next ha =>
      have hany : c.st.pendingCommands.any (fun e => e.2 = m) = false := by
        by_contra hx
        have hx' : c.st.pendingCommands.any (fun e => e.2 = m) = true := by
          simpa using hx
        exact hguard (by simp [ha, hdup, hx'])
      show countPendingMid (c.st.pendingCommands ++ [(c.commandSeq + 1, m)]) mid ≤ 1
      rw [countPendingMid_append]
      by_cases hm : m = mid
      · subst hm
        rw [countPendingMid_zero_of_not_any _ _ hany]
        simp
      · simp only [hm, if_neg]
        have := h mid
        simp [hm]
        omega
    · exact h mid

theorem handleTighteningResult_pending (c : Client) (now : ℚ) (d : TRes) :
    (handleTighteningResult c now d).1.st.pendingCommands = c.st.pendingCommands
      ∧ (handleTighteningResult c now d).1.allowDuplicateCommands
          = c.allowDuplicateCommands := by
  simp only [handleTighteningResult]
  split_ifs <;> exact ⟨rfl, rfl⟩

theorem sendOut_both (c cx : Client) (m : Nat) (p : Str) (a : Bool)
    (hpend : cx.st.pendingCommands = c.st.pendingCommands)
    (hdx : cx.allowDuplicateCommands = c.allowDuplicateCommands)
    (h : ∀ m2, countPendingMid c.st.pendingCommands m2 ≤ 1)
    (hdup : c.allowDuplicateCommands = false) :
    (∀ m2, countPendingMid (sendMID cx m p a).cli.st.pendingCommands m2 ≤ 1)
      ∧ (sendMID cx m p a).cli.allowDuplicateCommands = false := by
  constructor
  · apply sendMID_count_le
    · intro m2
      rw [hpend]
      exact h m2
    · rw [hdx]
      exact hdup
  · rw [sendMID_allowDup, hdx]
    exact hdup

theorem handleMID_count_le (c : Client) (mid : JsNum) (d : Parsed) (now : ℚ)
    (h : ∀ m, countPendingMid c.st.pendingCommands m ≤ 1)
    (hdup : c.allowDuplicateCommands = false) :
    (∀ m, countPendingMid (handleMID c mid d now).cli.st.pendingCommands m ≤ 1)
      ∧ (handleMID c mid d now).cli.allowDuplicateCommands = false := by
  cases d with
  | commStartAck rev =>
      simp only [handleMID]
      split
      · next heq =>
          constructor
          · intro m
            apply sendMID_count_le
            · exact h
            · exact hdup
          · exact (sendMID_allowDup _ 60 [] true).trans hdup
      · next heq =>
          split
          · next heq2 =>
              constructor
              · intro m
                apply sendMID_count_le
                · intro m2
                  apply sendMID_count_le
                  · exact h
                  · exact hdup
                · exact (sendMID_allowDup _ 60 [] true).trans hdup
              · exact (sendMID_allowDup _ 70 [] true).trans
                  ((sendMID_allowDup _ 60 [] true).trans hdup)
          · next heq2 =>
              constructor
              · intro m
                apply sendMID_count_le
                · intro m2
                  apply sendMID_count_le
                  · exact h
                  · exact hdup
                · exact (sendMID_allowDup _ 60 [] true).trans hdup
              · exact (sendMID_allowDup _ 70 [] true).trans
                  ((sendMID_allowDup _ 60 [] true).trans hdup)
  | cmdError fm ec msg =>
      simp only [handleMID]
      split
      · refine ⟨fun m => le_trans (countPendingMid_le_of_sublist _ _
          (resolvePending_sublist _ fm false) m) (h m), ?_⟩
        exact (resolvePending_allowDup _ fm false).trans hdup
      · refine ⟨fun m => le_trans (countPendingMid_le_of_sublist _ _
          (resolvePending_sublist _ fm false) m) (h m), ?_⟩
        exact (resolvePending_allowDup _ fm false).trans hdup
  | cmdAccepted am =>
      simp only [handleMID]
      split
      · refine ⟨fun m => le_trans (countPendingMid_le_of_sublist _ _
          (resolvePending_sublist _ am true) m) (h m), ?_⟩
        exact (resolvePending_allowDup _ am true).trans hdup
      · refine ⟨fun m => le_trans (countPendingMid_le_of_sublist _ _
          (resolvePending_sublist _ am true) m) (h m), ?_⟩
        exact (resolvePending_allowDup _ am true).trans hdup
  | paramSetReply pid => exact ⟨h, hdup⟩
  | batchDecAck bc => exact ⟨h, hdup⟩
  | toolStatus cr te tr aa =>
      simp only [handleMID]
      split
      · exact ⟨h, hdup⟩
      · exact ⟨h, hdup⟩
  | vinReply vin => exact ⟨h, hdup⟩
  | vinRequiredMsg => exact ⟨h, hdup⟩
  | jobReply jid => exact ⟨h, hdup⟩
  | batchReply bid bsize bcounter => exact ⟨h, hdup⟩
  | result r =>
      have key : ∀ (cx : Client), (∀ m, countPendingMid cx.st.pendingCommands m ≤ 1) →
          cx.allowDuplicateCommands = false →
          (∀ m, countPendingMid
              (sendMID (handleTighteningResult cx now r).1 62 [] false).cli.st.pendingCommands
              m ≤ 1)
            ∧ (sendMID (handleTighteningResult cx now r).1 62 [] false).cli.allowDuplicateCommands
                = false := by
        intro cx hx hdx
        have hpe := handleTighteningResult_pending cx now r
        constructor
        · intro m
          apply sendMID_count_le
          · intro m2
            rw [hpe.1]
            exact hx m2
          · rw [hpe.2]
            exact hdx
        · rw [sendMID_allowDup, hpe.2]
          exact hdx
      exact key _ h hdup
  | alarmMsg a => exact ⟨h, hdup⟩
  | alarmStatusMsg st cur =>
      simp only [handleMID]
      split
      · exact ⟨h, hdup⟩
      · exact ⟨h, hdup⟩
  | multiSpindle cid sc ok ts =>
      simp only [handleMID]
      split
      · exact ⟨h, hdup⟩
      · exact ⟨h, hdup⟩
  | raw p => exact ⟨h, hdup⟩

theorem stepf_count_le (c : Client) (s : Step)
    (h : ∀ m, countPendingMid c.st.pendingCommands m ≤ 1)
    (hdup : c.allowDuplicateCommands = false) :
    (∀ m, countPendingMid (stepf c s).cli.st.pendingCommands m ≤ 1)
      ∧ (stepf c s).cli.allowDuplicateCommands = false := by
  cases s with
  | connectOk =>
      simp only [stepf]
      split
      · exact ⟨h, hdup⟩
      · cases hcfg : c.configuredSpindleCount with
        | some q =>
            simp only [hcfg]
            constructor
            · intro m
              apply sendMID_count_le
              · exact h
              · exact hdup
            · exact (sendMID_allowDup _ 1 [] false).trans hdup
        | none =>
            simp only [hcfg]
            constructor
            · intro m
              apply sendMID_count_le
              · exact h
              · exact hdup
            · exact (sendMID_allowDup _ 1 [] false).trans hdup
  | socketClosed =>
      refine ⟨fun m => ?_, hdup⟩
      show countPendingMid ([] : List (Nat × Nat)) m ≤ 1
      simp [countPendingMid]
  | scheduleReconnect => exact ⟨h, hdup⟩
  | recvFrame mid payload now =>
      have hh := handleMID_count_le c mid (parseMID c.st.protocol.revision mid payload) now h hdup
      simp only [stepf, recvFrameStep]
      split
      · exact hh
      · exact hh
  | watchdogTimeout =>
      simp only [stepf, watchdogFire]
      split
      · exact ⟨h, hdup⟩
      · exact ⟨h, hdup⟩
  | cmdTimeout cmdId =>
      simp only [stepf]
      split
      · refine ⟨fun m => le_trans (countPendingMid_le_of_sublist _ _
          (List.filter_sublist _) m) (h m), hdup⟩
      · exact ⟨h, hdup⟩
  | opStartTightening =>
      simp only [stepf]
      split
      · exact ⟨h, hdup⟩
      · constructor
        · intro m
          apply sendMID_count_le
          · exact h
          · exact hdup
        · exact (sendMID_allowDup _ 43 [] true).trans hdup
  | opSelectJob j =>
      constructor
      · intro m
        apply sendMID_count_le
        · exact h
        · exact hdup
      · exact (sendMID_allowDup _ 34 _ true).trans hdup
  | opSelectParameterSet p =>
      constructor
      · intro m
        apply sendMID_count_le
        · exact h
        · exact hdup
      · exact (sendMID_allowDup _ 18 _ true).trans hdup
  | opDownloadVIN v =>
      simp only [stepf]
      split
      · exact ⟨h, hdup⟩
      · constructor
        · intro m
          apply sendMID_count_le
          · exact h
          · exact hdup
        · exact (sendMID_allowDup _ 50 _ true).trans hdup
  | opEnableTool =>
      constructor
      · intro m
        apply sendMID_count_le
        · exact h
        · exact hdup
      · exact (sendMID_allowDup _ 42 [] true).trans hdup
  | opDisableTool =>
      constructor
      · intro m
        apply sendMID_count_le
        · exact h
        · exact hdup
      · exact (sendMID_allowDup _ 45 [] true).trans hdup
  | opResetBatch =>
      constructor
      · intro m
        apply sendMID_count_le
        · exact h
        · exact hdup
      · exact (sendMID_allowDup _ 20 [] true).trans hdup
  | opDecrementBatch =>
      constructor
      · intro m
        apply sendMID_count_le
        · exact h
        · exact hdup
      · exact (sendMID_allowDup _ 21 [] true).trans hdup
  | opAcknowledgeAlarm =>
      constructor
      · intro m
        apply sendMID_count_le
        · exact h
        · exact hdup
      · exact (sendMID_allowDup _ 78 [] true).trans hdup
  | opSubscribeTighteningResults =>
      simp only [stepf]
      split
      · constructor
        · intro m
          apply sendMID_count_le
          · exact h
          · exact hdup
        · exact (sendMID_allowDup _ 60 [] true).trans hdup
      · constructor
        · intro m
          apply sendMID_count_le
          · exact h
          · exact hdup
        · exact (sendMID_allowDup _ 60 [] true).trans hdup
  | opUnsubscribeTighteningResults =>
      constructor
      · intro m
        apply sendMID_count_le
        · exact h
        · exact hdup
      · exact (sendMID_allowDup _ 63 [] false).trans hdup
  | opSubscribeAlarms =>
      simp only [stepf]
      split
      · constructor
        · intro m
          apply sendMID_count_le
          · exact h
          · exact hdup
        · exact (sendMID_allowDup _ 70 [] true).trans hdup
      · constructor
        · intro m
          apply sendMID_count_le
          · exact h
          · exact hdup
        · exact (sendMID_allowDup _ 70 [] true).trans hdup
  | opUnsubscribeAlarms =>
      constructor
      · intro m
        apply sendMID_count_le
        · exact h
        · exact hdup
      · exact (sendMID_allowDup _ 73 [] false).trans hdup
  | opSetSpindleCount count =>
      simp only [stepf]
      split
      · exact ⟨h, hdup⟩
      · exact ⟨h, hdup⟩
  | opDisconnect =>
      constructor
      · intro m
        apply sendMID_count_le
        · exact h
        · exact hdup
      · exact (sendMID_allowDup _ 2 [] false).trans hdup


theorem handleMID_allowDup (c : Client) (mid : JsNum) (d : Parsed) (now : ℚ) :
    (handleMID c mid d now).cli.allowDuplicateCommands = c.allowDuplicateCommands := by
  cases d with
  | commStartAck rev =>
      simp only [handleMID]
      split
      · next heq => exact sendMID_allowDup _ 60 [] true
      · next heq =>
          split
          · next heq2 =>
              exact (sendMID_allowDup _ 70 [] true).trans (sendMID_allowDup _ 60 [] true)
          · next heq2 =>
              exact (sendMID_allowDup _ 70 [] true).trans (sendMID_allowDup _ 60 [] true)
  | cmdError fm ec msg =>
      simp only [handleMID]
      split
      · exact resolvePending_allowDup _ fm false
      · exact resolvePending_allowDup _ fm false
  | cmdAccepted am =>
      simp only [handleMID]
      split
      · exact resolvePending_allowDup _ am true
      · exact resolvePending_allowDup _ am true
  | paramSetReply pid => rfl
  | batchDecAck bc => rfl
  | toolStatus cr te tr aa =>
      simp only [handleMID]
      split
      · rfl
      · rfl
  | vinReply vin => rfl
  | vinRequiredMsg => rfl
  | jobReply jid => rfl
  | batchReply bid bsize bcounter => rfl
  | result r =>
      exact (sendMID_allowDup _ 62 [] false).trans
        (handleTighteningResult_pending _ now r).2
  | alarmMsg a => rfl
  | alarmStatusMsg st cur =>
      simp only [handleMID]
      split
      · rfl
      · rfl
  | multiSpindle cid sc ok ts =>
      simp only [handleMID]
      split
      · rfl
      · rfl
  | raw p => rfl

theorem stepf_allowDup (c : Client) (s : Step) :
    (stepf c s).cli.allowDuplicateCommands = c.allowDuplicateCommands := by
  cases s with
  | connectOk =>
      simp only [stepf]
      split
      · rfl
      · cases hcfg : c.configuredSpindleCount with
        | some q => simp only [hcfg]; exact sendMID_allowDup _ 1 [] false
        | none => simp only [hcfg]; exact sendMID_allowDup _ 1 [] false
  | socketClosed => rfl
  | scheduleReconnect => rfl
  | recvFrame mid payload now =>
      have hh := handleMID_allowDup c mid (parseMID c.st.protocol.revision mid payload) now
      simp only [stepf, recvFrameStep]
      split
      · exact hh
      · exact hh
  | watchdogTimeout =>
      simp only [stepf, watchdogFire]
      split
      · rfl
      · rfl
  | cmdTimeout cmdId =>
      simp only [stepf]
      split
      · rfl
      · rfl
  | opStartTightening =>
      simp only [stepf]
      split
      · rfl
      · exact sendMID_allowDup _ 43 [] true
  | opSelectJob j => exact sendMID_allowDup _ 34 _ true
  | opSelectParameterSet p => exact sendMID_allowDup _ 18 _ true
  | opDownloadVIN v =>
      simp only [stepf]
      split
      · rfl
      · exact sendMID_allowDup _ 50 _ true
  | opEnableTool => exact sendMID_allowDup _ 42 [] true
  | opDisableTool => exact sendMID_allowDup _ 45 [] true
  | opResetBatch => exact sendMID_allowDup _ 20 [] true
  | opDecrementBatch => exact sendMID_allowDup _ 21 [] true
  | opAcknowledgeAlarm => exact sendMID_allowDup _ 78 [] true
  | opSubscribeTighteningResults =>
      simp only [stepf]
      split
      · exact sendMID_allowDup _ 60 [] true
      · exact sendMID_allowDup _ 60 [] true
  | opUnsubscribeTighteningResults => exact sendMID_allowDup _ 63 [] false
  | opSubscribeAlarms =>
      simp only [stepf]
      split
      · exact sendMID_allowDup _ 70 [] true
      · exact sendMID_allowDup _ 70 [] true
  | opUnsubscribeAlarms => exact sendMID_allowDup _ 73 [] false
  | opSetSpindleCount count =>
      simp only [stepf]
      split
      · rfl
      · rfl
  | opDisconnect => exact sendMID_allowDup _ 2 [] false

theorem reachable_count_le (c : Client) (hr : Reachable c) :
    c.allowDuplicateCommands = false →
    ∀ m, countPendingMid c.st.pendingCommands m ≤ 1 := by
  induction hr with
  | init allowDup cfg =>
      intro _ m
      simp [initClient, createInitialState, countPendingMid]
  | step c0 s hrc ih =>
      intro hdup
      have hdup0 : c0.allowDuplicateCommands = false :=
        (stepf_allowDup c0 s).symm.trans hdup
      exact (stepf_count_le c0 s (ih hdup0) hdup0).1

/-- C7: with duplicate commands disabled, every reachable pending-command
table holds at most one entry per MID; and from any client with no pending
entry for a MID, the first ACK-expecting `sendMID` for that MID succeeds with
exactly one socket write while the second (with no intervening ACK, NAK or
timeout) fails fast with a `CommandError` and writes nothing — two calls,
one write. -/
theorem one_per_mid (c : Client) (hr : Reachable c)
    (hdup : c.allowDuplicateCommands = false) :
    (∀ mid, countPendingMid c.st.pendingCommands mid ≤ 1)
  ∧ (∀ (mid : Nat) (p1 p2 : Str),
      countPendingMid c.st.pendingCommands mid = 0 →
      (sendMID c mid p1 true).exn = none
        ∧ (sendMID c mid p1 true).writes.length = 1
        ∧ (sendMID (sendMID c mid p1 true).cli mid p2 true).exn = some (.command mid)
        ∧ (sendMID (sendMID c mid p1 true).cli mid p2 true).writes = []) := by
  refine ⟨reachable_count_le c hr hdup, ?_⟩
  intro mid p1 p2 hzero
  have hany : c.st.pendingCommands.any (fun e => e.2 = mid) = false :=
    any_eq_false_of_countPendingMid_zero _ _ hzero
  have hfirst : sendMID c mid p1 true
      = { cli := { c with
            commandSeq := c.commandSeq + 1
            lastCommandId := some (c.commandSeq + 1)
            st := { c.st with
              pendingCommands := c.st.pendingCommands ++ [(c.commandSeq + 1, mid)] } }
          writes := [encodeFrame mid p1 true], exn := none
          ret := some (c.commandSeq + 1) } := by
    unfold sendMID
    simp [hdup, hany]
  have hsecond : (sendMID (sendMID c mid p1 true).cli mid p2 true).exn
        = some (.command mid)
      ∧ (sendMID (sendMID c mid p1 true).cli mid p2 true).writes = [] := by
    rw [hfirst]
    unfold sendMID
    simp [hdup, List.any_append]
  refine ⟨by simp [hfirst], by simp [hfirst], hsecond.1, hsecond.2⟩

/-- Witness for C7 at a fresh client and MID 0042. -/
theorem one_per_mid_witness :
    (∀ mid, countPendingMid (initClient false none).st.pendingCommands mid ≤ 1)
      ∧ (sendMID (initClient false none) 42 [] true).exn = none
      ∧ (sendMID (sendMID (initClient false none) 42 [] true).cli 42 [] true).exn
          = some (.command 42)
      ∧ (sendMID (sendMID (initClient false none) 42 [] true).cli 42 [] true).writes
          = [] := by
  have h := one_per_mid (initClient false none) (.init false none) rfl
  exact ⟨h.1, (h.2 42 [] [] (by decide)).1, (h.2 42 [] [] (by decide)).2.2.1,
    (h.2 42 [] [] (by decide)).2.2.2⟩

/-! ## Claim C8: frame round-trip -/

theorem take_append_len (l1 l2 : Str) (n : Nat) (h : l1.length = n) :
    (l1 ++ l2).take n = l1 := by
  subst h
  simp

theorem drop_append_len (l1 l2 : Str) (n : Nat) (h : l1.length = n) :
    (l1 ++ l2).drop n = l2 := by
  subst h
  simp

theorem ne_nul_of_isDigit (c : Char) (h : c.isDigit = true) : c ≠ Char.ofNat 0 := by
  rintro rfl
  exact absurd h (by decide)

theorem onDataLoopF_nil (fuel : Nat) :
    onDataLoopF fuel [] = { frames := [], errors := [], rest := [] } := by
  cases fuel with
  | zero => rfl
  | succ fuel => rfl

theorem onDataLoopF_single (fuel : Nat) (buffer : Str)
    (hlen4 : (jsSlice buffer 0 4).all Char.isDigit = true)
    (hval : digitsToNat (jsSlice buffer 0 4) = buffer.length)
    (h20 : 20 ≤ buffer.length) (h9999 : buffer.length ≤ 9999)
    (hfuel : 1 ≤ fuel) :
    onDataLoopF fuel buffer =
      { frames := [{ body := jsSlice buffer 4 buffer.length
                     mid := jsParseInt (jsSlice (jsSlice buffer 4 buffer.length) 0 4)
                     payload := jsSliceFrom (jsSlice buffer 4 buffer.length) 16 }]
        errors := [], rest := [] } := by
  cases fuel with
  | zero => omega
  | succ fuel =>
    rw [onDataLoopF]
    rw [if_neg (by omega)]
    simp only [hval]
    rw [if_neg (not_not_intro hlen4)]
    rw [if_neg (by omega)]
    rw [if_neg (by omega)]
    have hdrop : buffer.drop buffer.length = [] := by simp
    rw [hdrop, onDataLoopF_nil]

/-- C8: for a MID of at most four digits, a NUL-free payload, and a total
frame length of at most 9999, feeding the encoder's output to the decoder
yields exactly one frame (no frame errors, empty remaining buffer) whose MID,
NoAck byte (`'0'` when an ACK is expected, `'1'` otherwise), remaining header
fields and payload are exactly the encoded ones; NUL stripping does not
disturb the encoded bytes. -/
theorem frame_roundtrip (mid : Nat) (payload : Str) (ack : Bool)
    (hmid : mid ≤ 9999)
    (hpay : ∀ ch ∈ payload, ch ≠ Char.ofNat 0)
    (hlen : payload.length + 20 ≤ 9999) :
    stripNul (encodeFrame mid payload ack) = encodeFrame mid payload ack
  ∧ ∃ f : DecFrame,
      (onDataLoop (encodeFrame mid payload ack)).frames = [f]
        ∧ f.mid = .num mid
        ∧ f.payload = payload
        ∧ jsSlice f.body 0 4 = padStart 4 '0' (natToStr mid)
        ∧ jsSlice f.body 4 16
            = ['0', '0', '1', if ack then '0' else '1', '0', '1', '0', '1', ' ', ' ', ' ', ' ']
        ∧ (onDataLoop (encodeFrame mid payload ack)).errors = []
        ∧ (onDataLoop (encodeFrame mid payload ack)).rest = [] := by
  have hmid4 : (natToStr mid).length ≤ 4 :=
    natToStr_length_le 4 mid (by omega) (by omega)
  set B := padStart 4 '0' (natToStr mid) with hBdef
  have hB4 : B.length = 4 := padStart_length 4 '0' _ hmid4
  have hBdig : B.all Char.isDigit = true :=
    padStart_all_digits 4 _ (natToStr_all_digits mid)
  set noAck : Char := if ack then '0' else '1' with hnadef
  set H : Str := ['0', '0', '1', noAck, '0', '1', '0', '1', ' ', ' ', ' ', ' '] with hHdef
  have hH12 : H.length = 12 := by rw [hHdef]; rfl
  set body := B ++ H ++ payload with hbodydef
  have hbodylen : body.length = 16 + payload.length := by
    simp [hbodydef, hB4, hH12]
    omega
  set L := body.length + 4 with hLdef
  have hL20 : 20 ≤ L := by omega
  have hL9999 : L ≤ 9999 := by omega
  set lenStr := padStart 4 '0' (natToStr L) with hlsdef
  have hls4 : lenStr.length = 4 :=
    padStart_length 4 '0' _ (natToStr_length_le 4 L (by omega) (by omega))
  have hlsdig : lenStr.all Char.isDigit = true :=
    padStart_all_digits 4 _ (natToStr_all_digits L)
  have henc : encodeFrame mid payload ack = lenStr ++ body := rfl
  have hwlen : (lenStr ++ body).length = L := by
    rw [List.length_append, hls4, hLdef]
    omega
  have hslice04 : jsSlice (lenStr ++ body) 0 4 = lenStr := by
    simp only [jsSlice, List.drop_zero, Nat.sub_zero]
    exact take_append_len _ _ 4 hls4
  have hvalL : digitsToNat (jsSlice (lenStr ++ body) 0 4) = (lenStr ++ body).length := by
    rw [hslice04, hlsdef, digitsToNat_padStart, digitsToNat_natToStr, hwlen]
  have hbodyslice : jsSlice (lenStr ++ body) 4 ((lenStr ++ body).length) = body := by
    simp only [jsSlice]
    rw [drop_append_len _ _ 4 hls4, hwlen]
    have : L - 4 = body.length := by omega
    rw [this, List.take_length]
  have hmidslice : jsSlice body 0 4 = B := by
    simp only [jsSlice, List.drop_zero, Nat.sub_zero, hbodydef, List.append_assoc]
    exact take_append_len _ _ 4 hB4
  have hmidparse : jsParseInt (jsSlice body 0 4) = .num mid := by
    rw [hmidslice, jsParseInt_digits B (by
        intro hx
        exact absurd (congrArg List.length hx) (by rw [hB4]; simp)) hBdig,
      hBdef, digitsToNat_padStart, digitsToNat_natToStr]
  have hpayslice : jsSliceFrom body 16 = payload := by
    simp only [jsSliceFrom, hbodydef]
    exact drop_append_len _ _ 16 (by simp [hB4, hH12])
  have hheadslice : jsSlice body 4 16 = H := by
    simp only [jsSlice, hbodydef, List.append_assoc]
    rw [drop_append_len _ _ 4 hB4]
    exact take_append_len _ _ 12 hH12
  have hHnul : ∀ ch ∈ H, ch ≠ Char.ofNat 0 := by
    intro ch hch
    rw [hHdef] at hch
    simp only [List.mem_cons, List.not_mem_nil, or_false] at hch
    rcases hch with rfl | rfl | rfl | hch
    · decide
    · decide
    · decide
    rcases hch with rfl | rfl | rfl | rfl | rfl | rfl | rfl | rfl | rfl
    · rw [hnadef]
      cases ack <;> decide
    all_goals decide
  have hstrip : stripNul (lenStr ++ body) = lenStr ++ body := by
    apply List.filter_eq_self.mpr
    intro ch hch
    simp only [ne_eq, decide_eq_true_eq]
    rcases List.mem_append.mp hch with hl | hr
    · exact ne_nul_of_isDigit _ ((List.all_eq_true.mp hlsdig) _ hl)
    · rw [hbodydef] at hr
      rcases List.mem_append.mp hr with hbh | hp
      · rcases List.mem_append.mp hbh with hb | hh
        · exact ne_nul_of_isDigit _ ((List.all_eq_true.mp hBdig) _ hb)
        · exact hHnul _ hh
      · exact hpay _ hp
  have hloop := onDataLoopF_single ((lenStr ++ body).length) (lenStr ++ body)
    (by rw [hslice04]; exact hlsdig) hvalL (by omega) (by omega) (by omega)
  rw [henc]
  refine ⟨hstrip, ?_⟩
  refine ⟨{ body := body, mid := .num mid, payload := payload }, ?_, rfl, rfl, ?_, ?_, ?_, ?_⟩
  · show (onDataLoopF (lenStr ++ body).length (lenStr ++ body)).frames = _
    rw [hloop]
    simp only [hbodyslice]
    rw [hmidparse, hpayslice]
  · exact hmidslice
  · rw [hheadslice, hHdef, hnadef]
  · show (onDataLoopF (lenStr ++ body).length (lenStr ++ body)).errors = []
    rw [hloop]
  · show (onDataLoopF (lenStr ++ body).length (lenStr ++ body)).rest = []
    rw [hloop]

/-- Witness for C8 at MID 43, payload `"AB"`, `expect_ack = true`. -/
theorem frame_roundtrip_witness :
    stripNul (encodeFrame 43 ("AB".toList) true) = encodeFrame 43 ("AB".toList) true
  ∧ ∃ f : DecFrame,
      (onDataLoop (encodeFrame 43 ("AB".toList) true)).frames = [f]
        ∧ f.mid = .num 43
        ∧ f.payload = "AB".toList
        ∧ jsSlice f.body 0 4 = padStart 4 '0' (natToStr 43)
        ∧ jsSlice f.body 4 16
            = ['0', '0', '1', if true then '0' else '1', '0', '1', '0', '1', ' ', ' ', ' ', ' ']
        ∧ (onDataLoop (encodeFrame 43 ("AB".toList) true)).errors = []
        ∧ (onDataLoop (encodeFrame 43 ("AB".toList) true)).rest = [] :=
  frame_roundtrip 43 ("AB".toList) true (by omega) (by decide) (by decide)

/-! ## Claim C6: completion exclusivity per cycle -/

/-- Whether an event is one of the two cycle-completion events. -/
def isCompletionEvent : Event → Bool
  | .tighteningCycleCompleted _ _ => true
  | .tighteningIncomplete _ _ => true
  | _ => false

/-- Number of cycle-completion events in a list. -/
def completionCount (evs : List Event) : Nat :=
  (evs.filter isCompletionEvent).length

/-- A live watchdog timer implies a cycle in progress (holds in every
reachable state). -/
def WdInv (c : Client) : Prop :=
  c.st.tightening.watchdogArmed = true → c.st.tightening.inProgress = true

theorem completionCount_append (a b : List Event) :
    completionCount (a ++ b) = completionCount a + completionCount b := by
  simp [completionCount, List.filter_append]

theorem completionCount_aborted (l : List (Nat × Nat)) :
    completionCount (l.map (fun e => Event.commandAborted e.2 e.1)) = 0 := by
  induction l with
  | nil => rfl
  | cons e rest ih => simpa [completionCount, isCompletionEvent] using ih

theorem sendMID_tightening (c : Client) (m : Nat) (p : Str) (a : Bool) :
    (sendMID c m p a).cli.st.tightening = c.st.tightening := by
  simp only [sendMID]
  split
  · rfl
  · split <;> rfl

theorem resolvePending_tightening (c : Client) (mid : JsNum) (b : Bool) :
    (resolvePendingCommand c mid b).1.st.tightening = c.st.tightening := by
  simp only [resolvePendingCommand]
  split <;> rfl

theorem handleTighteningResult_cases (c : Client) (now : ℚ) (d : TRes) :
    (completionCount (handleTighteningResult c now d).2 = 0
        ∧ (handleTighteningResult c now d).1.st.tightening.inProgress
            = c.st.tightening.inProgress
        ∧ (handleTighteningResult c now d).1.st.tightening.watchdogArmed
            = c.st.tightening.watchdogArmed)
  ∨ (completionCount (handleTighteningResult c now d).2 = 1
        ∧ (handleTighteningResult c now d).1.st.tightening.inProgress = false
        ∧ (handleTighteningResult c now d).1.st.tightening.watchdogArmed = false) := by
  simp only [handleTighteningResult]
  split_ifs <;>
    first
      | (left
         refine ⟨?_, rfl, rfl⟩
         simp [completionCount, isCompletionEvent])
      | (right
         refine ⟨?_, rfl, rfl⟩
         simp [completionCount, isCompletionEvent])

theorem resolvePending_completion (c : Client) (mid : JsNum) (b : Bool) :
    completionCount (resolvePendingCommand c mid b).2 = 0 := by
  simp only [resolvePendingCommand]
  split
  · rfl
  · cases b <;> simp [completionCount, isCompletionEvent]

theorem handleMID_completion (c : Client) (mid : JsNum) (d : Parsed) (now : ℚ)
    (hpre : c.st.tightening.inProgress = true) :
    ((handleMID c mid d now).cli.st.tightening.inProgress = true
        ∧ completionCount (handleMID c mid d now).events = 0)
  ∨ ((handleMID c mid d now).cli.st.tightening.inProgress = false
        ∧ (handleMID c mid d now).cli.st.tightening.watchdogArmed = false
        ∧ completionCount (handleMID c mid d now).events = 1) := by
  cases d with
  | commStartAck rev =>
      simp only [handleMID]
      split
      · next heq =>
          left
          exact ⟨(congrArg TighteningSt.inProgress (sendMID_tightening _ 60 [] true)).trans hpre,
            by simp [completionCount, isCompletionEvent]⟩
      · next heq =>
          split <;>
            · left
              exact ⟨(congrArg TighteningSt.inProgress (sendMID_tightening _ 70 [] true)).trans
                  ((congrArg TighteningSt.inProgress (sendMID_tightening _ 60 [] true)).trans hpre),
                by simp [completionCount, completionCount_append, isCompletionEvent, finishOk]⟩
  | cmdError fm ec msg =>
      simp only [handleMID]
      split <;>
        · left
          exact ⟨(congrArg TighteningSt.inProgress (resolvePending_tightening _ fm false)).trans hpre,
            by
              simp only [finishOk, completionCount_append, resolvePending_completion]
              simp [completionCount, isCompletionEvent]⟩
  | cmdAccepted am =>
      simp only [handleMID]
      split <;>
        · left
          exact ⟨(congrArg TighteningSt.inProgress (resolvePending_tightening _ am true)).trans hpre,
            by
              simp only [finishOk, completionCount_append, resolvePending_completion]
              simp [completionCount, isCompletionEvent]⟩
  | paramSetReply pid =>
      left
      exact ⟨hpre, by simp [handleMID, completionCount, isCompletionEvent, finishOk]⟩
  | batchDecAck bc =>
      left
      exact ⟨hpre, by simp [handleMID, completionCount, isCompletionEvent, finishOk]⟩
  | toolStatus cr te tr aa =>
      simp only [handleMID]
      split
      · next hcond =>
          exact absurd hcond (by simp [hpre])
      · left
        exact ⟨hpre, by simp [completionCount, isCompletionEvent, finishOk]⟩
  | vinReply vin =>
      left
      exact ⟨hpre, by simp [handleMID, completionCount, isCompletionEvent, finishOk]⟩
  | vinRequiredMsg =>
      left
      exact ⟨hpre, by simp [handleMID, completionCount, isCompletionEvent, finishOk]⟩
  | jobReply jid =>
      left
      exact ⟨hpre, by simp [handleMID, completionCount, isCompletionEvent, finishOk]⟩
  | batchReply bid bsize bcounter =>
      left
      exact ⟨hpre, by simp [handleMID, completionCount, isCompletionEvent, finishOk]⟩
  | result r =>
      have key : ∀ cx : Client, cx.st.tightening.inProgress = true →
          ((sendMID (handleTighteningResult cx now r).1 62 [] false).cli.st.tightening.inProgress
                = true
              ∧ completionCount ((handleTighteningResult cx now r).2 ++ [Event.stateChanged]) = 0)
            ∨ ((sendMID (handleTighteningResult cx now r).1 62 [] false).cli.st.tightening.inProgress
                = false
              ∧ (sendMID
                  (handleTighteningResult cx now r).1 62 [] false).cli.st.tightening.watchdogArmed
                = false
              ∧ completionCount ((handleTighteningResult cx now r).2 ++ [Event.stateChanged]) = 1) := by
        intro cx hx
        rcases handleTighteningResult_cases cx now r with ⟨h0, hip, hwd⟩ | ⟨h1, hip, hwd⟩
        · left
          refine ⟨?_, ?_⟩
          · exact ((congrArg TighteningSt.inProgress
              (sendMID_tightening (handleTighteningResult cx now r).1 62 [] false)).trans
                hip).trans hx
          · rw [completionCount_append, h0]
            rfl
        · right
          refine ⟨?_, ?_, ?_⟩
          · exact (congrArg TighteningSt.inProgress
              (sendMID_tightening (handleTighteningResult cx now r).1 62 [] false)).trans hip
          · exact (congrArg TighteningSt.watchdogArmed
              (sendMID_tightening (handleTighteningResult cx now r).1 62 [] false)).trans hwd
          · rw [completionCount_append, h1]
            rfl
      refine key _ ?_
      exact hpre
  | alarmMsg a =>
      left
      exact ⟨hpre, by simp [handleMID, completionCount, isCompletionEvent, finishOk]⟩
  | alarmStatusMsg st cur =>
      simp only [handleMID]
      split <;>
        · left
          exact ⟨hpre, by simp [completionCount, isCompletionEvent, finishOk]⟩
  | multiSpindle cid sc ok ts =>
      simp only [handleMID]
      split <;>
        · left
          exact ⟨hpre, by simp [completionCount, isCompletionEvent, finishOk]⟩
  | raw p =>
      left
      exact ⟨hpre, by simp [handleMID, completionCount, isCompletionEvent, finishOk]⟩

theorem wdInv_transfer (c0 c1 : Client)
    (h : c1.st.tightening = c0.st.tightening) (hw : WdInv c0) : WdInv c1 := by
  intro hx
  rw [congrArg TighteningSt.inProgress h]
  exact hw ((congrArg TighteningSt.watchdogArmed h).symm.trans hx)

theorem handleMID_tightening_cases (c : Client) (mid : JsNum) (d : Parsed) (now : ℚ) :
    ((handleMID c mid d now).cli.st.tightening.inProgress = c.st.tightening.inProgress
        ∧ (handleMID c mid d now).cli.st.tightening.watchdogArmed
            = c.st.tightening.watchdogArmed)
  ∨ ((handleMID c mid d now).cli.st.tightening.inProgress = true
        ∧ (handleMID c mid d now).cli.st.tightening.watchdogArmed = true)
  ∨ ((handleMID c mid d now).cli.st.tightening.inProgress = false
        ∧ (handleMID c mid d now).cli.st.tightening.watchdogArmed = false) := by
  cases d with
  | commStartAck rev =>
      simp only [handleMID]
      split
      · left
        exact ⟨congrArg TighteningSt.inProgress (sendMID_tightening _ 60 [] true),
          congrArg TighteningSt.watchdogArmed (sendMID_tightening _ 60 [] true)⟩
      · split <;>
          · left
            exact ⟨(congrArg TighteningSt.inProgress (sendMID_tightening _ 70 [] true)).trans
                (congrArg TighteningSt.inProgress (sendMID_tightening _ 60 [] true)),
              (congrArg TighteningSt.watchdogArmed (sendMID_tightening _ 70 [] true)).trans
                (congrArg TighteningSt.watchdogArmed (sendMID_tightening _ 60 [] true))⟩
  | cmdError fm ec msg =>
      simp only [handleMID]
      split <;>
        · left
          exact ⟨congrArg TighteningSt.inProgress (resolvePending_tightening _ fm false),
            congrArg TighteningSt.watchdogArmed (resolvePending_tightening _ fm false)⟩
  | cmdAccepted am =>
      simp only [handleMID]
      split <;>
        · left
          exact ⟨congrArg TighteningSt.inProgress (resolvePending_tightening _ am true),
            congrArg TighteningSt.watchdogArmed (resolvePending_tightening _ am true)⟩
  | paramSetReply pid => left; exact ⟨rfl, rfl⟩
  | batchDecAck bc => left; exact ⟨rfl, rfl⟩
  | toolStatus cr te tr aa =>
      simp only [handleMID]
      split
      · right; left; exact ⟨rfl, rfl⟩
      · left; exact ⟨rfl, rfl⟩
  | vinReply vin => left; exact ⟨rfl, rfl⟩
  | vinRequiredMsg => left; exact ⟨rfl, rfl⟩
  | jobReply jid => left; exact ⟨rfl, rfl⟩
  | batchReply bid bsize bcounter => left; exact ⟨rfl, rfl⟩
  | result r =>
      have key : ∀ cx : Client,
          (((sendMID (handleTighteningResult cx now r).1 62 [] false).cli.st.tightening.inProgress
                = cx.st.tightening.inProgress
              ∧ (sendMID
                  (handleTighteningResult cx now r).1 62 [] false).cli.st.tightening.watchdogArmed
                = cx.st.tightening.watchdogArmed)
            ∨ ((sendMID
                  (handleTighteningResult cx now r).1 62 [] false).cli.st.tightening.inProgress
                = false
              ∧ (sendMID
                  (handleTighteningResult cx now r).1 62 [] false).cli.st.tightening.watchdogArmed
                = false)) := by
        intro cx
        rcases handleTighteningResult_cases cx now r with ⟨h0, hip, hwd⟩ | ⟨h1, hip, hwd⟩
        · left
          exact ⟨(congrArg TighteningSt.inProgress
              (sendMID_tightening (handleTighteningResult cx now r).1 62 [] false)).trans hip,
            (congrArg TighteningSt.watchdogArmed
              (sendMID_tightening (handleTighteningResult cx now r).1 62 [] false)).trans hwd⟩
        · right
          exact ⟨(congrArg TighteningSt.inProgress
              (sendMID_tightening (handleTighteningResult cx now r).1 62 [] false)).trans hip,
            (congrArg TighteningSt.watchdogArmed
              (sendMID_tightening (handleTighteningResult cx now r).1 62 [] false)).trans hwd⟩
      rcases key _ with h | h
      · left; exact h
      · right; right; exact h
  | alarmMsg a => left; exact ⟨rfl, rfl⟩
  | alarmStatusMsg st cur =>
      simp only [handleMID]
      split <;>
        · left; exact ⟨rfl, rfl⟩
  | multiSpindle cid sc ok ts =>
      simp only [handleMID]
      split <;>
        · left; exact ⟨rfl, rfl⟩
  | raw p => left; exact ⟨rfl, rfl⟩

theorem handleMID_wdInv (c : Client) (mid : JsNum) (d : Parsed) (now : ℚ)
    (hw : WdInv c) : WdInv (handleMID c mid d now).cli := by
  rcases handleMID_tightening_cases c mid d now with ⟨hi, ha⟩ | ⟨hi, ha⟩ | ⟨hi, ha⟩
  · intro hx
    rw [hi]
    exact hw (ha.symm.trans hx)
  · intro _
    exact hi
  · intro hx
    exact absurd hx (by simp [ha])

theorem stepf_wdInv (c : Client) (s : Step) (hw : WdInv c) : WdInv (stepf c s).cli := by
  cases s with
  | connectOk =>
      simp only [stepf]
      split
      · exact hw
      · cases hcfg : c.configuredSpindleCount with
        | some q =>
            simp only [hcfg]
            exact wdInv_transfer c _ (sendMID_tightening _ 1 [] false) hw
        | none =>
            simp only [hcfg]
            exact wdInv_transfer c _ (sendMID_tightening _ 1 [] false) hw
  | socketClosed =>
      intro hx
      have h0 : (stepf c .socketClosed).cli.st.tightening.watchdogArmed = false := rfl
      rw [h0] at hx
      exact Bool.noConfusion hx
  | scheduleReconnect => exact wdInv_transfer c _ rfl hw
  | recvFrame mid payload now =>
      have hh := handleMID_wdInv c mid (parseMID c.st.protocol.revision mid payload) now hw
      simp only [stepf, recvFrameStep]
      split
      · exact hh
      · exact hh
  | watchdogTimeout =>
      simp only [stepf, watchdogFire]
      split
      · intro hx
        exact absurd hx (by simp)
      · exact hw
  | cmdTimeout cmdId =>
      simp only [stepf]
      split
      · exact wdInv_transfer c _ rfl hw
      · exact hw
  | opStartTightening =>
      simp only [stepf]
      split
      · exact hw
      · exact wdInv_transfer c _ (sendMID_tightening _ 43 [] true) hw
  | opSelectJob j => exact wdInv_transfer c _ (sendMID_tightening _ 34 _ true) hw
  | opSelectParameterSet p => exact wdInv_transfer c _ (sendMID_tightening _ 18 _ true) hw
  | opDownloadVIN v =>
      simp only [stepf]
      split
      · exact hw
      · exact wdInv_transfer c _ (sendMID_tightening _ 50 _ true) hw
  | opEnableTool => exact wdInv_transfer c _ (sendMID_tightening _ 42 [] true) hw
  | opDisableTool => exact wdInv_transfer c _ (sendMID_tightening _ 45 [] true) hw
  | opResetBatch => exact wdInv_transfer c _ (sendMID_tightening _ 20 [] true) hw
  | opDecrementBatch => exact wdInv_transfer c _ (sendMID_tightening _ 21 [] true) hw
  | opAcknowledgeAlarm => exact wdInv_transfer c _ (sendMID_tightening _ 78 [] true) hw
  | opSubscribeTighteningResults =>
      simp only [stepf]
      split
      · exact wdInv_transfer c _ (sendMID_tightening _ 60 [] true) hw
      · exact wdInv_transfer c _ (sendMID_tightening _ 60 [] true) hw
  | opUnsubscribeTighteningResults =>
      exact wdInv_transfer c _ (sendMID_tightening _ 63 [] false) hw
  | opSubscribeAlarms =>
      simp only [stepf]
      split
      · exact wdInv_transfer c _ (sendMID_tightening _ 70 [] true) hw
      · exact wdInv_transfer c _ (sendMID_tightening _ 70 [] true) hw
  | opUnsubscribeAlarms => exact wdInv_transfer c _ (sendMID_tightening _ 73 [] false) hw
  | opSetSpindleCount count =>
      simp only [stepf]
      split
      · exact hw
      · exact wdInv_transfer c _ rfl hw
  | opDisconnect => exact wdInv_transfer c _ (sendMID_tightening _ 2 [] false) hw

theorem reachable_wdInv (c : Client) (h : Reachable c) : WdInv c := by
  induction h with
  | init a cfg =>
      intro hx
      exact absurd hx (by simp [initClient, createInitialState])
  | step c0 s h0 ih => exact stepf_wdInv c0 s ih

theorem stepf_cycle_step (c : Client) (s : Step) (hw : WdInv c)
    (hpre : c.st.tightening.inProgress = true) :
    ((stepf c s).cli.st.tightening.inProgress = true
        ∧ completionCount (stepf c s).events = 0)
  ∨ ((stepf c s).cli.st.tightening.inProgress = false
        ∧ (stepf c s).cli.st.tightening.watchdogArmed = false
        ∧ completionCount (stepf c s).events = 1) := by
  cases s with
  | connectOk =>
      simp only [stepf]
      split
      · left; exact ⟨hpre, rfl⟩
      · cases hcfg : c.configuredSpindleCount with
        | some q =>
            simp only [hcfg]
            left
            exact ⟨(congrArg TighteningSt.inProgress (sendMID_tightening _ 1 [] false)).trans hpre,
              by simp [completionCount, isCompletionEvent]⟩
        | none =>
            simp only [hcfg]
            left
            exact ⟨(congrArg TighteningSt.inProgress (sendMID_tightening _ 1 [] false)).trans hpre,
              by simp [completionCount, isCompletionEvent]⟩
  | socketClosed =>
      left
      constructor
      · exact hpre
      · show completionCount
          (c.st.pendingCommands.map (fun e => Event.commandAborted e.2 e.1)
            ++ [Event.disconnectedEv]) = 0
        rw [completionCount_append, completionCount_aborted]
        rfl
  | scheduleReconnect =>
      left
      exact ⟨hpre, by simp [stepf, completionCount, isCompletionEvent]⟩
  | recvFrame mid payload now =>
      simp only [stepf, recvFrameStep]
      split
      · next heq =>
          rcases handleMID_completion c mid (parseMID c.st.protocol.revision mid payload) now hpre
            with ⟨hip, hcnt⟩ | ⟨hip, hwd, hcnt⟩
          · left
            refine ⟨hip, ?_⟩
            show completionCount
              ((handleMID c mid (parseMID c.st.protocol.revision mid payload) now).events
                ++ [Event.parseErrorEv]) = 0
            rw [completionCount_append, hcnt]
            rfl
          · right
            refine ⟨hip, hwd, ?_⟩
            show completionCount
              ((handleMID c mid (parseMID c.st.protocol.revision mid payload) now).events
                ++ [Event.parseErrorEv]) = 1
            rw [completionCount_append, hcnt]
            rfl
      · next heq =>
          rcases handleMID_completion c mid (parseMID c.st.protocol.revision mid payload) now hpre
            with ⟨hip, hcnt⟩ | ⟨hip, hwd, hcnt⟩
          · left; exact ⟨hip, hcnt⟩
          · right; exact ⟨hip, hwd, hcnt⟩
  | watchdogTimeout =>
      simp only [stepf, watchdogFire]
      split
      · right
        exact ⟨rfl, rfl, by simp [completionCount, isCompletionEvent]⟩
      · left
        exact ⟨hpre, rfl⟩
  | cmdTimeout cmdId =>
      simp only [stepf]
      split
      · left
        exact ⟨hpre, by simp [completionCount, isCompletionEvent]⟩
      · left
        exact ⟨hpre, rfl⟩
  | opStartTightening =>
      simp only [stepf]
      split
      · left; exact ⟨hpre, rfl⟩
      · left
        exact ⟨(congrArg TighteningSt.inProgress (sendMID_tightening _ 43 [] true)).trans hpre, rfl⟩
  | opSelectJob j =>
      left
      exact ⟨(congrArg TighteningSt.inProgress (sendMID_tightening _ 34 _ true)).trans hpre, rfl⟩
  | opSelectParameterSet p =>
      left
      exact ⟨(congrArg TighteningSt.inProgress (sendMID_tightening _ 18 _ true)).trans hpre, rfl⟩
  | opDownloadVIN v =>
      simp only [stepf]
      split
      · left; exact ⟨hpre, rfl⟩
      · left
        exact ⟨(congrArg TighteningSt.inProgress (sendMID_tightening _ 50 _ true)).trans hpre, rfl⟩
  | opEnableTool =>
      left
      exact ⟨(congrArg TighteningSt.inProgress (sendMID_tightening _ 42 [] true)).trans hpre, rfl⟩
  | opDisableTool =>
      left
      exact ⟨(congrArg TighteningSt.inProgress (sendMID_tightening _ 45 [] true)).trans hpre, rfl⟩
  | opResetBatch =>
      left
      exact ⟨(congrArg TighteningSt.inProgress (sendMID_tightening _ 20 [] true)).trans hpre, rfl⟩
  | opDecrementBatch =>
      left
      exact ⟨(congrArg TighteningSt.inProgress (sendMID_tightening _ 21 [] true)).trans hpre, rfl⟩
  | opAcknowledgeAlarm =>
      left
      exact ⟨(congrArg TighteningSt.inProgress (sendMID_tightening _ 78 [] true)).trans hpre, rfl⟩
  | opSubscribeTighteningResults =>
      simp only [stepf]
      split
      · left
        exact ⟨(congrArg TighteningSt.inProgress (sendMID_tightening _ 60 [] true)).trans hpre, rfl⟩
      · left
        exact ⟨(congrArg TighteningSt.inProgress (sendMID_tightening _ 60 [] true)).trans hpre, rfl⟩
  | opUnsubscribeTighteningResults =>
      left
      exact ⟨(congrArg TighteningSt.inProgress (sendMID_tightening _ 63 [] false)).trans hpre, rfl⟩
  | opSubscribeAlarms =>
      simp only [stepf]
      split
      · left
        exact ⟨(congrArg TighteningSt.inProgress (sendMID_tightening _ 70 [] true)).trans hpre, rfl⟩
      · left
        exact ⟨(congrArg TighteningSt.inProgress (sendMID_tightening _ 70 [] true)).trans hpre, rfl⟩
  | opUnsubscribeAlarms =>
      left
      exact ⟨(congrArg TighteningSt.inProgress (sendMID_tightening _ 73 [] false)).trans hpre, rfl⟩
  | opSetSpindleCount count =>
      simp only [stepf]
      split
      · left; exact ⟨hpre, rfl⟩
      · left
        exact ⟨hpre, by simp [completionCount, isCompletionEvent]⟩
  | opDisconnect =>
      left
      exact ⟨(congrArg TighteningSt.inProgress (sendMID_tightening _ 2 [] false)).trans hpre, rfl⟩

/-- Events emitted from `c` along `steps`, up to and including the first step
after which the cycle is no longer in progress. -/
def cycleEvents (c : Client) : List Step → List Event
  | [] => []
  | s :: rest =>
      let m := stepf c s
      if m.cli.st.tightening.inProgress then m.events ++ cycleEvents m.cli rest
      else m.events

/-- Whether the in-progress cycle ends somewhere along `steps`. -/
def cycleCloses (c : Client) : List Step → Bool
  | [] => false
  | s :: rest =>
      let m := stepf c s
      if m.cli.st.tightening.inProgress then cycleCloses m.cli rest
      else true

theorem cycle_events_aux (steps : List Step) :
    ∀ c : Client, WdInv c → c.st.tightening.inProgress = true →
      (cycleCloses c steps = true → completionCount (cycleEvents c steps) = 1)
        ∧ (cycleCloses c steps = false → completionCount (cycleEvents c steps) = 0) := by
  induction steps with
  | nil =>
      intro c hw hpre
      constructor
      · intro hc
        exact absurd hc (by simp [cycleCloses])
      · intro _
        rfl
  | cons s rest ih =>
      intro c hw hpre
      have hw2 := stepf_wdInv c s hw
      rcases stepf_cycle_step c s hw hpre with ⟨hip, hcnt⟩ | ⟨hip, hwd, hcnt⟩
      · constructor
        · intro hc
          simp only [cycleCloses, hip, if_true] at hc
          simp only [cycleEvents, hip, if_true]
          rw [completionCount_append, hcnt]
          simpa using (ih (stepf c s).cli hw2 hip).1 hc
        · intro hc
          simp only [cycleCloses, hip, if_true] at hc
          simp only [cycleEvents, hip, if_true]
          rw [completionCount_append, hcnt]
          simpa using (ih (stepf c s).cli hw2 hip).2 hc
      · constructor
        · intro hc
          simp only [cycleEvents, hip]
          simpa using hcnt
        · intro hc
          simp only [cycleCloses, hip] at hc
          simp at hc

/-- C6: for every cycle, exactly one of `tighteningCycleCompleted` or
`tighteningIncomplete` fires.  From any reachable client with a cycle in
progress: along any steps, if the cycle ends, exactly one completion-type
event was emitted during the cycle (its closing step included), and none if
it has not yet ended — so never both for the same cycle.  Moreover any
single step emitting such an event ends the cycle with the watchdog timer no
longer live: completion cancels the watchdog before emitting, and the
watchdog consumes itself when it fires, so no completion event for the same
cycle can follow. -/
theorem cycle_completion_exclusive (c : Client) (hr : Reachable c)
    (hpre : c.st.tightening.inProgress = true) (steps : List Step) :
    (cycleCloses c steps = true → completionCount (cycleEvents c steps) = 1)
  ∧ (cycleCloses c steps = false → completionCount (cycleEvents c steps) = 0)
  ∧ (∀ s : Step, 1 ≤ completionCount (stepf c s).events →
      completionCount (stepf c s).events = 1
        ∧ (stepf c s).cli.st.tightening.inProgress = false
        ∧ (stepf c s).cli.st.tightening.watchdogArmed = false) := by
  have hw : WdInv c := reachable_wdInv c hr
  refine ⟨(cycle_events_aux steps c hw hpre).1, (cycle_events_aux steps c hw hpre).2, ?_⟩
  intro s hs
  rcases stepf_cycle_step c s hw hpre with ⟨hip, hcnt⟩ | ⟨hip, hwd, hcnt⟩
  · rw [hcnt] at hs
    exact absurd hs (by omega)
  · exact ⟨hcnt, hip, hwd⟩

/-- Witness for C6: a cycle started by a MID 0041 tool-running frame, closed
by the watchdog, emits exactly one completion-type event. -/
theorem cycle_completion_exclusive_witness :
    completionCount (cycleEvents
      (stepf (initClient false none) (.recvFrame (.num 41) ("0010".toList) 0)).cli
      [.watchdogTimeout]) = 1 :=
  (cycle_completion_exclusive
    (stepf (initClient false none) (.recvFrame (.num 41) ("0010".toList) 0)).cli
    (.step (initClient false none) (.recvFrame (.num 41) ("0010".toList) 0)
      (.init false none))
    (by decide) [.watchdogTimeout]).1 (by decide)

/-! ## Claim C9: batch invariants -/

/-- The batch invariant provable on the code: a non-negative known size, the
complete-implies-inactive law, size known whenever a batch is active, and —
while the batch is not complete — a numeric counter bounded by the size. -/
def BatchInv (b : BatchSt) : Prop :=
  (∀ q : ℚ, b.size = some (.num q) → 0 ≤ q)
  ∧ (b.complete = true → b.active = false)
  ∧ (b.active = true → ∃ q : ℚ, b.size = some (.num q))
  ∧ (b.complete = false → ∀ q : ℚ, b.size = some (.num q) →
      ∃ k : ℚ, b.counter = .num k ∧ k ≤ q)

/-- Spec-side: well-formed controller replies for the batch fields (claim
C9's reading of MID 0031/0021): numeric counters that do not exceed the
(reported or currently known, non-negative) batch size. -/
def StepBatchWF (c : Client) (s : Step) : Prop :=
  match s with
  | .recvFrame mid payload _ =>
      (mid = .num 31 →
        ∃ k q : ℚ, jsNumber (jsSlice payload 8 12) = .num k
          ∧ jsNumber (jsSlice payload 4 8) = .num q ∧ k ≤ q ∧ 0 ≤ q)
      ∧ (mid = .num 21 →
        ∃ k : ℚ, jsNumber (jsSlice payload 0 4) = .num k
          ∧ ∀ q : ℚ, c.st.batch.size = some (.num q) → k ≤ q)
  | _ => True

/-- Clients reachable from a fresh instance through steps whose batch wire
values are well-formed. -/
inductive ReachableW : Client → Prop where
  | init (allowDup : Bool) (cfg : Option JsNum) : ReachableW (initClient allowDup cfg)
  | step (c : Client) (s : Step) (h : ReachableW c) (hwf : StepBatchWF c s) :
      ReachableW (stepf c s).cli

theorem batchInv_congr (b0 b1 : BatchSt) (hc : b1.complete = b0.complete)
    (ha : b1.active = b0.active) (hs : b1.size = b0.size) (hk : b1.counter = b0.counter)
    (h : BatchInv b0) : BatchInv b1 := by
  unfold BatchInv at *
  rw [hc, ha, hs, hk]
  exact h

/-- C9 counterexample: from the initial state, a MID 0031 batch reply whose
payload reports counter 9 and size 5 is copied unchecked into the state:
`batch.size` is known (5) yet `batch.counter` is 9 — refuting
"`batch.counter ≤ batch.size` whenever `batch.size` is known" as an invariant
of the MID 0031 projection. -/
theorem batch_counter_exceeds_size :
    (stepf (initClient false none)
        (.recvFrame (.num 31) ("000100050009".toList) 0)).cli.st.batch.size
      = some (.num 5)
  ∧ (stepf (initClient false none)
        (.recvFrame (.num 31) ("000100050009".toList) 0)).cli.st.batch.counter
      = .num 9
  ∧ (stepf (initClient false none)
        (.recvFrame (.num 31) ("000100050009".toList) 0)).cli.st.batch.complete
      = false
  ∧ ¬(9 : ℚ) ≤ 5 := by
  refine ⟨by decide, by decide, by decide, by norm_num⟩

theorem handleTighteningResult_batchInv (c : Client) (now : ℚ) (d : TRes)
    (h : BatchInv c.st.batch) : BatchInv (handleTighteningResult c now d).1.st.batch := by
  obtain ⟨h0, h1, h2, h3⟩ := h
  simp only [handleTighteningResult]
  split_ifs <;>
    first
      | exact ⟨h0, h1, h2, h3⟩
      | (rename_i hbatch hreach
         exact ⟨h0, fun _ => rfl, fun hx => absurd hx (by simp),
           fun hx => absurd hx (by simp)⟩)
      | (rename_i hbatch hreach
         simp only [Bool.and_eq_true, Bool.not_eq_true'] at hbatch
         refine ⟨h0, fun hx => absurd hx (by simp [hbatch.2]), fun _ => h2 hbatch.1, ?_⟩
         intro hcomp q hq
         have hq2 : c.st.batch.size = some (.num q) := hq
         obtain ⟨k, hk, hkq⟩ := h3 hbatch.2 q hq2
         refine ⟨k + 1, ?_, ?_⟩
         · show c.st.batch.counter.inc = JsNum.num (k + 1)
           rw [hk]
           rfl
         · by_contra hgt
           apply hreach
           have hceq : c.st.batch.counter.inc = JsNum.num (k + 1) := by
             rw [hk]
             rfl
           show jsGeOptNull c.st.batch.counter.inc c.st.batch.size = true
           rw [hceq, hq2]
           simp only [jsGeOptNull, decide_eq_true_eq, ge_iff_le]
           linarith)

/-- The half of the batch invariant that needs no wire assumptions. -/
def CAInv (b : BatchSt) : Prop := b.complete = true → b.active = false

theorem caInv_congr (b0 b1 : BatchSt) (hc : b1.complete = b0.complete)
    (ha : b1.active = b0.active) (h : CAInv b0) : CAInv b1 := by
  unfold CAInv at *
  rw [hc, ha]
  exact h

theorem handleTighteningResult_caInv (c : Client) (now : ℚ) (d : TRes)
    (h : CAInv c.st.batch) : CAInv (handleTighteningResult c now d).1.st.batch := by
  simp only [handleTighteningResult]
  split_ifs <;>
    first
      | exact h
      | exact fun _ => rfl
      | (rename_i hbatch hreach
         simp only [Bool.and_eq_true, Bool.not_eq_true'] at hbatch
         exact fun hx => absurd hx (by simp [hbatch.2]))

theorem handleMID_caInv (c : Client) (mid : JsNum) (d : Parsed) (now : ℚ)
    (h : CAInv c.st.batch) : CAInv (handleMID c mid d now).cli.st.batch := by
  cases d with
  | commStartAck rev =>
      simp only [handleMID]
      split
      · exact caInv_congr _ _
          (congrArg BatchSt.complete (sendMID_batch _ 60 [] true))
          (congrArg BatchSt.active (sendMID_batch _ 60 [] true)) h
      · split <;>
          exact caInv_congr _ _
            ((congrArg BatchSt.complete (sendMID_batch _ 70 [] true)).trans
              (congrArg BatchSt.complete (sendMID_batch _ 60 [] true)))
            ((congrArg BatchSt.active (sendMID_batch _ 70 [] true)).trans
              (congrArg BatchSt.active (sendMID_batch _ 60 [] true))) h
  | cmdError fm ec msg =>
      simp only [handleMID]
      split <;>
        · refine caInv_congr _ _ ?_ ?_ h
          · simp [finishOk, resolvePending_batch]
          · simp [finishOk, resolvePending_batch]
  | cmdAccepted am =>
      simp only [handleMID]
      split
      · exact fun hx => absurd hx (by simp [finishOk])
      · refine caInv_congr _ _ ?_ ?_ h
        · simp [finishOk, resolvePending_batch]
        · simp [finishOk, resolvePending_batch]
  | paramSetReply pid => exact h
  | batchDecAck bc => exact h
  | toolStatus cr te tr aa =>
      simp only [handleMID]
      split
      · exact h
      · exact h
  | vinReply vin => exact h
  | vinRequiredMsg => exact h
  | jobReply jid => exact h
  | batchReply bid bsize bcounter => exact fun hx => absurd hx (by simp [handleMID, finishOk])
  | result r =>
      have key : ∀ cx : Client, CAInv cx.st.batch →
          CAInv (sendMID (handleTighteningResult cx now r).1 62 [] false).cli.st.batch := by
        intro cx hx
        exact caInv_congr _ _
          (congrArg BatchSt.complete
            (sendMID_batch (handleTighteningResult cx now r).1 62 [] false))
          (congrArg BatchSt.active
            (sendMID_batch (handleTighteningResult cx now r).1 62 [] false))
          (handleTighteningResult_caInv cx now r hx)
      refine key _ ?_
      exact h
  | alarmMsg a => exact h
  | alarmStatusMsg st cur =>
      simp only [handleMID]
      split
      · exact h
      · exact h
  | multiSpindle cid sc ok ts =>
      simp only [handleMID]
      split
      · exact h
      · exact h
  | raw p => exact h

theorem stepf_caInv (c : Client) (s : Step) (h : CAInv c.st.batch) :
    CAInv (stepf c s).cli.st.batch := by
  cases s with
  | connectOk =>
      simp only [stepf]
      split
      · exact h
      · cases hcfg : c.configuredSpindleCount with
        | some q =>
            simp only [hcfg]
            exact caInv_congr _ _
              (congrArg BatchSt.complete (sendMID_batch _ 1 [] false))
              (congrArg BatchSt.active (sendMID_batch _ 1 [] false)) h
        | none =>
            simp only [hcfg]
            exact caInv_congr _ _
              (congrArg BatchSt.complete (sendMID_batch _ 1 [] false))
              (congrArg BatchSt.active (sendMID_batch _ 1 [] false)) h
  | socketClosed => exact h
  | scheduleReconnect => exact h
  | recvFrame mid payload now =>
      have hh := handleMID_caInv c mid (parseMID c.st.protocol.revision mid payload) now h
      simp only [stepf, recvFrameStep]
      split
      · exact hh
      · exact hh
  | watchdogTimeout =>
      simp only [stepf, watchdogFire]
      split
      · exact h
      · exact h
  | cmdTimeout cmdId =>
      simp only [stepf]
      split
      · exact h
      · exact h
  | opStartTightening =>
      simp only [stepf]
      split
      · exact h
      · exact caInv_congr _ _
          (congrArg BatchSt.complete (sendMID_batch _ 43 [] true))
          (congrArg BatchSt.active (sendMID_batch _ 43 [] true)) h
  | opSelectJob j =>
      exact caInv_congr _ _
        (congrArg BatchSt.complete (sendMID_batch _ 34 _ true))
        (congrArg BatchSt.active (sendMID_batch _ 34 _ true)) h
  | opSelectParameterSet p =>
      exact caInv_congr _ _
        (congrArg BatchSt.complete (sendMID_batch _ 18 _ true))
        (congrArg BatchSt.active (sendMID_batch _ 18 _ true)) h
  | opDownloadVIN v =>
      simp only [stepf]
      split
      · exact h
      · exact caInv_congr _ _
          (congrArg BatchSt.complete (sendMID_batch _ 50 _ true))
          (congrArg BatchSt.active (sendMID_batch _ 50 _ true)) h
  | opEnableTool =>
      exact caInv_congr _ _
        (congrArg BatchSt.complete (sendMID_batch _ 42 [] true))
        (congrArg BatchSt.active (sendMID_batch _ 42 [] true)) h
  | opDisableTool =>
      exact caInv_congr _ _
        (congrArg BatchSt.complete (sendMID_batch _ 45 [] true))
        (congrArg BatchSt.active (sendMID_batch _ 45 [] true)) h
  | opResetBatch =>
      exact caInv_congr _ _
        (congrArg BatchSt.complete (sendMID_batch _ 20 [] true))
        (congrArg BatchSt.active (sendMID_batch _ 20 [] true)) h
  | opDecrementBatch =>
      exact caInv_congr _ _
        (congrArg BatchSt.complete (sendMID_batch _ 21 [] true))
        (congrArg BatchSt.active (sendMID_batch _ 21 [] true)) h
  | opAcknowledgeAlarm =>
      exact caInv_congr _ _
        (congrArg BatchSt.complete (sendMID_batch _ 78 [] true))
        (congrArg BatchSt.active (sendMID_batch _ 78 [] true)) h
  | opSubscribeTighteningResults =>
      simp only [stepf]
      split <;>
        exact caInv_congr _ _
          (congrArg BatchSt.complete (sendMID_batch _ 60 [] true))
          (congrArg BatchSt.active (sendMID_batch _ 60 [] true)) h
  | opUnsubscribeTighteningResults =>
      exact caInv_congr _ _
        (congrArg BatchSt.complete (sendMID_batch _ 63 [] false))
        (congrArg BatchSt.active (sendMID_batch _ 63 [] false)) h
  | opSubscribeAlarms =>
      simp only [stepf]
      split <;>
        exact caInv_congr _ _
          (congrArg BatchSt.complete (sendMID_batch _ 70 [] true))
          (congrArg BatchSt.active (sendMID_batch _ 70 [] true)) h
  | opUnsubscribeAlarms =>
      exact caInv_congr _ _
        (congrArg BatchSt.complete (sendMID_batch _ 73 [] false))
        (congrArg BatchSt.active (sendMID_batch _ 73 [] false)) h
  | opSetSpindleCount count =>
      simp only [stepf]
      split
      · exact h
      · exact h
  | opDisconnect =>
      exact caInv_congr _ _
        (congrArg BatchSt.complete (sendMID_batch _ 2 [] false))
        (congrArg BatchSt.active (sendMID_batch _ 2 [] false)) h

theorem reachable_caInv (c : Client) (h : Reachable c) : CAInv c.st.batch := by
  induction h with
  | init a cfg => exact fun hx => rfl
  | step c0 s h0 ih => exact stepf_caInv c0 s ih

theorem parseMID_batchReply_inv (rev : ℚ) (mid : JsNum) (p : Str)
    (bid bsize bcounter : JsNum)
    (h : parseMID rev mid p = .batchReply bid bsize bcounter) :
    mid = .num 31 ∧ bsize = jsNumber (jsSlice p 4 8)
      ∧ bcounter = jsNumber (jsSlice p 8 12) := by
  unfold parseMID at h
  by_cases hA : mid = .num 2 ∨ mid = .num 3
  · rw [if_pos hA] at h; cases h
  rw [if_neg hA] at h
  by_cases hB : mid = .num 4
  · rw [if_pos hB] at h; cases h
  rw [if_neg hB] at h
  by_cases hC : mid = .num 5
  · rw [if_pos hC] at h; cases h
  rw [if_neg hC] at h
  by_cases hD : mid = .num 11
  · rw [if_pos hD] at h; cases h
  rw [if_neg hD] at h
  by_cases hE : mid = .num 21
  · rw [if_pos hE] at h; cases h
  rw [if_neg hE] at h
  by_cases hF : mid = .num 41
  · rw [if_pos hF] at h; cases h
  rw [if_neg hF] at h
  by_cases hG : mid = .num 51
  · rw [if_pos hG] at h; cases h
  rw [if_neg hG] at h
  by_cases hH : mid = .num 52
  · rw [if_pos hH] at h; cases h
  rw [if_neg hH] at h
  by_cases hI : mid = .num 35
  · rw [if_pos hI] at h; cases h
  rw [if_neg hI] at h
  by_cases hK : mid = .num 31
  · rw [if_pos hK] at h
    cases h
    exact ⟨hK, rfl, rfl⟩
  rw [if_neg hK] at h
  by_cases hL : mid = .num 61
  · rw [if_pos hL] at h; cases h
  rw [if_neg hL] at h
  by_cases hM : mid = .num 65
  · rw [if_pos hM] at h; cases h
  rw [if_neg hM] at h
  by_cases hN : mid = .num 70
  · rw [if_pos hN] at h; cases h
  rw [if_neg hN] at h
  by_cases hO : mid = .num 76
  · rw [if_pos hO] at h; cases h
  rw [if_neg hO] at h
  by_cases hP : mid = .num 101
  · rw [if_pos hP] at h; cases h
  rw [if_neg hP] at h
  cases h

theorem parseMID_batchDecAck_inv (rev : ℚ) (mid : JsNum) (p : Str) (bc : JsNum)
    (h : parseMID rev mid p = .batchDecAck bc) :
    mid = .num 21 ∧ bc = jsNumber (jsSlice p 0 4) := by
  unfold parseMID at h
  by_cases hA : mid = .num 2 ∨ mid = .num 3
  · rw [if_pos hA] at h; cases h
  rw [if_neg hA] at h
  by_cases hB : mid = .num 4
  · rw [if_pos hB] at h; cases h
  rw [if_neg hB] at h
  by_cases hC : mid = .num 5
  · rw [if_pos hC] at h; cases h
  rw [if_neg hC] at h
  by_cases hD : mid = .num 11
  · rw [if_pos hD] at h; cases h
  rw [if_neg hD] at h
  by_cases hE : mid = .num 21
  · rw [if_pos hE] at h
    cases h
    exact ⟨hE, rfl⟩
  rw [if_neg hE] at h
  by_cases hF : mid = .num 41
  · rw [if_pos hF] at h; cases h
  rw [if_neg hF] at h
  by_cases hG : mid = .num 51
  · rw [if_pos hG] at h; cases h
  rw [if_neg hG] at h
  by_cases hH : mid = .num 52
  · rw [if_pos hH] at h; cases h
  rw [if_neg hH] at h
  by_cases hI : mid = .num 35
  · rw [if_pos hI] at h; cases h
  rw [if_neg hI] at h
  by_cases hK : mid = .num 31
  · rw [if_pos hK] at h; cases h
  rw [if_neg hK] at h
  by_cases hL : mid = .num 61
  · rw [if_pos hL] at h; cases h
  rw [if_neg hL] at h
  by_cases hM : mid = .num 65
  · rw [if_pos hM] at h; cases h
  rw [if_neg hM] at h
  by_cases hN : mid = .num 70
  · rw [if_pos hN] at h; cases h
  rw [if_neg hN] at h
  by_cases hO : mid = .num 76
  · rw [if_pos hO] at h; cases h
  rw [if_neg hO] at h
  by_cases hP : mid = .num 101
  · rw [if_pos hP] at h; cases h
  rw [if_neg hP] at h
  cases h

theorem sendMID_batchInv (cx : Client) (m : Nat) (p : Str) (a : Bool)
    (h : BatchInv cx.st.batch) : BatchInv (sendMID cx m p a).cli.st.batch := by
  refine batchInv_congr _ _ ?_ ?_ ?_ ?_ h
  · exact congrArg BatchSt.complete (sendMID_batch cx m p a)
  · exact congrArg BatchSt.active (sendMID_batch cx m p a)
  · exact congrArg BatchSt.size (sendMID_batch cx m p a)
  · exact congrArg BatchSt.counter (sendMID_batch cx m p a)

theorem handleMID_batchInv (c : Client) (mid : JsNum) (d : Parsed) (now : ℚ)
    (h : BatchInv c.st.batch)
    (hwf31 : ∀ bid bsize bcounter, d = .batchReply bid bsize bcounter →
        ∃ k q : ℚ, bcounter = .num k ∧ bsize = .num q ∧ k ≤ q ∧ 0 ≤ q)
    (hwf21 : ∀ bc, d = .batchDecAck bc →
        ∃ k : ℚ, bc = .num k ∧ ∀ q : ℚ, c.st.batch.size = some (.num q) → k ≤ q) :
    BatchInv (handleMID c mid d now).cli.st.batch := by
  obtain ⟨h0, h1, h2, h3⟩ := h
  cases d with
  | commStartAck rev =>
      simp only [handleMID]
      split
      · refine sendMID_batchInv _ 60 [] true ?_
        exact ⟨h0, h1, h2, h3⟩
      · split <;>
          · refine sendMID_batchInv _ 70 [] true ?_
            refine sendMID_batchInv _ 60 [] true ?_
            exact ⟨h0, h1, h2, h3⟩
  | cmdError fm ec msg =>
      simp only [handleMID]
      split <;>
        · simp only [finishOk, resolvePending_batch]
          exact ⟨h0, h1, h2, h3⟩
  | cmdAccepted am =>
      simp only [handleMID]
      split
      · simp only [finishOk, resolvePending_batch]
        refine ⟨h0, ?_, h2, ?_⟩
        · intro hx
          exact absurd hx (by simp)
        · intro _ q hq
          exact ⟨0, rfl, h0 q hq⟩
      · simp only [finishOk, resolvePending_batch]
        exact ⟨h0, h1, h2, h3⟩
  | paramSetReply pid => exact ⟨h0, h1, h2, h3⟩
  | batchDecAck bc =>
      obtain ⟨k, hbc, hko⟩ := hwf21 bc rfl
      refine ⟨h0, h1, h2, ?_⟩
      intro hcomp q hq
      have hq2 : c.st.batch.size = some (.num q) := hq
      refine ⟨k, ?_, hko q hq2⟩
      show bc = JsNum.num k
      exact hbc
  | toolStatus cr te tr aa =>
      simp only [handleMID]
      split
      · exact ⟨h0, h1, h2, h3⟩
      · exact ⟨h0, h1, h2, h3⟩
  | vinReply vin => exact ⟨h0, h1, h2, h3⟩
  | vinRequiredMsg => exact ⟨h0, h1, h2, h3⟩
  | jobReply jid => exact ⟨h0, h1, h2, h3⟩
  | batchReply bid bsize bcounter =>
      obtain ⟨k, q, hbc, hbs, hkq, hq0⟩ := hwf31 bid bsize bcounter rfl
      refine ⟨?_, ?_, ?_, ?_⟩
      · intro q' hq'
        have hv : bsize = JsNum.num q' := Option.some.inj hq'
        rw [hbs] at hv
        have hqq : q = q' := JsNum.num.inj hv
        rw [← hqq]
        exact hq0
      · intro hx
        exact absurd hx (by simp [handleMID, finishOk])
      · intro _
        refine ⟨q, ?_⟩
        show some bsize = some (JsNum.num q)
        exact congrArg some hbs
      · intro _ q' hq'
        have hv : bsize = JsNum.num q' := Option.some.inj hq'
        rw [hbs] at hv
        have hqq : q = q' := JsNum.num.inj hv
        refine ⟨k, ?_, by rw [← hqq]; exact hkq⟩
        show bcounter = JsNum.num k
        exact hbc
  | result r =>
      have key : ∀ cx : Client, BatchInv cx.st.batch →
          BatchInv (sendMID (handleTighteningResult cx now r).1 62 [] false).cli.st.batch := by
        intro cx hx
        refine batchInv_congr _ _ ?_ ?_ ?_ ?_ (handleTighteningResult_batchInv cx now r hx)
        · exact congrArg BatchSt.complete
            (sendMID_batch (handleTighteningResult cx now r).1 62 [] false)
        · exact congrArg BatchSt.active
            (sendMID_batch (handleTighteningResult cx now r).1 62 [] false)
        · exact congrArg BatchSt.size
            (sendMID_batch (handleTighteningResult cx now r).1 62 [] false)
        · exact congrArg BatchSt.counter
            (sendMID_batch (handleTighteningResult cx now r).1 62 [] false)
      refine key _ ?_
      exact ⟨h0, h1, h2, h3⟩
  | alarmMsg a => exact ⟨h0, h1, h2, h3⟩
  | alarmStatusMsg st cur =>
      simp only [handleMID]
      split
      · exact ⟨h0, h1, h2, h3⟩
      · exact ⟨h0, h1, h2, h3⟩
  | multiSpindle cid sc ok ts =>
      simp only [handleMID]
      split
      · exact ⟨h0, h1, h2, h3⟩
      · exact ⟨h0, h1, h2, h3⟩
  | raw p => exact ⟨h0, h1, h2, h3⟩

theorem stepf_batchInv (c : Client) (s : Step) (hwf : StepBatchWF c s)
    (h : BatchInv c.st.batch) : BatchInv (stepf c s).cli.st.batch := by
  cases s with
  | connectOk =>
      simp only [stepf]
      split
      · exact h
      · cases hcfg : c.configuredSpindleCount with
        | some q =>
            simp only [hcfg]
            refine sendMID_batchInv _ 1 [] false ?_
            exact h
        | none =>
            simp only [hcfg]
            refine sendMID_batchInv _ 1 [] false ?_
            exact h
  | socketClosed => exact h
  | scheduleReconnect => exact h
  | recvFrame mid payload now =>
      obtain ⟨hwf31, hwf21⟩ := hwf
      have hh := handleMID_batchInv c mid (parseMID c.st.protocol.revision mid payload) now h
        (fun bid bs bc hd => by
          obtain ⟨hm, hbs, hbc⟩ := parseMID_batchReply_inv _ _ _ _ _ _ hd
          obtain ⟨k, q, hk, hq, hkq, hq0⟩ := hwf31 hm
          refine ⟨k, q, ?_, ?_, hkq, hq0⟩
          · rw [hbc]; exact hk
          · rw [hbs]; exact hq)
        (fun bc hd => by
          obtain ⟨hm, hbc⟩ := parseMID_batchDecAck_inv _ _ _ _ hd
          obtain ⟨k, hk, hko⟩ := hwf21 hm
          refine ⟨k, ?_, hko⟩
          rw [hbc]; exact hk)
      simp only [stepf, recvFrameStep]
      split
      · exact hh
      · exact hh
  | watchdogTimeout =>
      simp only [stepf, watchdogFire]
      split
      · exact h
      · exact h
  | cmdTimeout cmdId =>
      simp only [stepf]
      split
      · exact h
      · exact h
  | opStartTightening =>
      simp only [stepf]
      split
      · exact h
      · refine sendMID_batchInv _ 43 [] true ?_
        exact h
  | opSelectJob j =>
      refine sendMID_batchInv _ 34 _ true ?_
      exact h
  | opSelectParameterSet p =>
      refine sendMID_batchInv _ 18 _ true ?_
      exact h
  | opDownloadVIN v =>
      simp only [stepf]
      split
      · exact h
      · refine sendMID_batchInv _ 50 _ true ?_
        exact h
  | opEnableTool =>
      refine sendMID_batchInv _ 42 [] true ?_
      exact h
  | opDisableTool =>
      refine sendMID_batchInv _ 45 [] true ?_
      exact h
  | opResetBatch =>
      refine sendMID_batchInv _ 20 [] true ?_
      exact h
  | opDecrementBatch =>
      refine sendMID_batchInv _ 21 [] true ?_
      exact h
  | opAcknowledgeAlarm =>
      refine sendMID_batchInv _ 78 [] true ?_
      exact h
  | opSubscribeTighteningResults =>
      simp only [stepf]
      split <;>
        · refine sendMID_batchInv _ 60 [] true ?_
          exact h
  | opUnsubscribeTighteningResults =>
      refine sendMID_batchInv _ 63 [] false ?_
      exact h
  | opSubscribeAlarms =>
      simp only [stepf]
      split <;>
        · refine sendMID_batchInv _ 70 [] true ?_
          exact h
  | opUnsubscribeAlarms =>
      refine sendMID_batchInv _ 73 [] false ?_
      exact h
  | opSetSpindleCount count =>
      simp only [stepf]
      split
      · exact h
      · exact h
  | opDisconnect =>
      refine sendMID_batchInv _ 2 [] false ?_
      exact h

theorem reachableW_batchInv (c : Client) (h : ReachableW c) : BatchInv c.st.batch := by
  induction h with
  | init a cfg =>
      refine ⟨?_, ?_, ?_, ?_⟩ <;> simp [initClient, createInitialState]
  | step c0 s h0 hwfs ih => exact stepf_batchInv c0 s hwfs ih

/-- Claim C9 (amended): the batch invariants of reachable states.  The
complete-implies-inactive half holds in every reachable state.  The
counter-bounded-by-size half holds, for every not-yet-complete batch with a
known numeric size, in every state reachable through batch wire values that
are well formed (MID 0031 / 0021 payloads whose numeric batch fields respect
the reported size): it is preserved by cycle completion, by the MID 0031
batch-reply projection and by the MID 0021 decrement acknowledgement.  As
stated the claim fails — a malformed MID 0031 payload is copied into the
state unchecked (see the counterexample). -/
theorem batch_invariants :
    (∀ c : Client, Reachable c →
        c.st.batch.complete = true → c.st.batch.active = false)
    ∧ (∀ c : Client, ReachableW c → ∀ q : ℚ,
        c.st.batch.size = some (.num q) → c.st.batch.complete = false →
          ∃ k : ℚ, c.st.batch.counter = .num k ∧ k ≤ q) := by
  constructor
  · exact fun c hr => reachable_caInv c hr
  · intro c hr q hq hcomp
    exact (reachableW_batchInv c hr).2.2.2 hcomp q hq

unseal Rat.add Rat.mul Rat.inv in
/-- Witness for C9: a completed one-bolt batch (MID 0031 sets size 1, a
revision-1 MID 0061 result completes the cycle and the batch) is inactive;
and after a well-formed MID 0031 reporting size 10, counter 5, the counter
is numeric and at most 10. -/
theorem batch_invariants_witness :
    ((stepf (stepf (initClient false none)
          (.recvFrame (.num 31) ("000100010000".toList) 0)).cli
        (.recvFrame (.num 61) ("000000000100123400009011".toList) 0)).cli.st.batch.active
      = false)
    ∧ (∃ k : ℚ,
        (stepf (initClient false none)
            (.recvFrame (.num 31) ("000100100005".toList) 0)).cli.st.batch.counter
          = .num k ∧ k ≤ 10) :=
  ⟨batch_invariants.1 _
      (.step _ (.recvFrame (.num 61) ("000000000100123400009011".toList) 0)
        (.step (initClient false none) (.recvFrame (.num 31) ("000100010000".toList) 0)
          (.init false none)))
      (by decide),
    batch_invariants.2 _
      (.step (initClient false none) (.recvFrame (.num 31) ("000100100005".toList) 0)
        (.init false none)
        ⟨fun _ => ⟨5, 10, by decide, by decide, by norm_num, by norm_num⟩,
          fun hm => absurd hm (by decide)⟩)
      10 (by decide) (by decide)⟩

/-! ## Claim C10: the `getState()` snapshot -/

/-- States whose JS-number fields are not `NaN`.  `JSON.stringify` renders
`NaN` as `null`, so on such states (and only on such states) the snapshot
determines every serialized number field. -/
def NoNanState (s : NState) : Prop :=
  s.connection.lastMID ≠ some .nan
  ∧ s.controller.errorCode ≠ some .nan
  ∧ s.tool.spindleCount ≠ .nan
  ∧ s.job.jobId ≠ some .nan
  ∧ s.job.paramSetId ≠ some .nan
  ∧ s.batch.batchId ≠ some .nan
  ∧ s.batch.size ≠ some .nan
  ∧ s.batch.counter ≠ .nan

/-- A state with the two `Map`-valued tables reset — the fields that
`getState()` serializes as `{}` whatever they contain. -/
def scrubEphemeral (s : NState) : NState :=
  { s with
    tightening := { s.tightening with pendingSpindles := [] }
    pendingCommands := [] }

theorem jsonOfNum_inj (a b : JsNum) (ha : a ≠ .nan) (hb : b ≠ .nan)
    (h : jsonOfNum a = jsonOfNum b) : a = b := by
  cases a with
  | nan => exact absurd rfl ha
  | num p =>
      cases b with
      | nan => exact absurd rfl hb
      | num q => simpa [jsonOfNum] using h

theorem jsonOfOptNum_inj (a b : Option JsNum) (ha : a ≠ some .nan) (hb : b ≠ some .nan)
    (h : jsonOfOptNum a = jsonOfOptNum b) : a = b := by
  cases a with
  | none =>
      cases b with
      | none => rfl
      | some x =>
          cases x with
          | nan => exact absurd rfl hb
          | num q => exact absurd h (by simp [jsonOfOptNum, jsonOfNum])
  | some x =>
      cases x with
      | nan => exact absurd rfl ha
      | num p =>
          cases b with
          | none => exact absurd h (by simp [jsonOfOptNum, jsonOfNum])
          | some y =>
              cases y with
              | nan => exact absurd rfl hb
              | num q =>
                  have hpq : p = q := by simpa [jsonOfOptNum, jsonOfNum] using h
                  rw [hpq]

theorem jsonOfOptStr_inj (a b : Option Str) (h : jsonOfOptStr a = jsonOfOptStr b) :
    a = b := by
  cases a <;> cases b <;> simp_all [jsonOfOptStr]

theorem jsonOfOptQ_inj (a b : Option ℚ) (h : jsonOfOptQ a = jsonOfOptQ b) : a = b := by
  cases a <;> cases b <;> simp_all [jsonOfOptQ]

theorem sourceName_inj (a b : SpindleSource) (h : sourceName a = sourceName b) : a = b := by
  cases a <;> cases b <;> first | rfl | exact absurd h (by decide)

theorem jsonOfAlarm_inj (a b : Alarm) (h : jsonOfAlarm a = jsonOfAlarm b) : a = b := by
  cases a
  cases b
  simp_all [jsonOfAlarm]

/-- C10 counterexample: two refutations of the raw claim.  (1) After a MID
0041 tool-running frame starts a cycle the watchdog is a live `Timeout`, a
circular structure, so `getState()` throws `TypeError` instead of returning
a snapshot at all.  (2) A MID 0035 job reply whose job-id field is not
numeric (`Number('XXXX')` is `NaN`) puts `NaN` into `state.job.jobId`;
`JSON.stringify` renders it `null`, so that state's snapshot is identical
to the snapshot of the state whose `jobId` is the (different) internal
value `null` — refuting "all non-Map fields in the snapshot equal the
internal values". -/
theorem snapshot_conflates_nan_and_null :
    ((stepf (initClient false none)
        (.recvFrame (.num 41) ("0010".toList) 0)).cli.st.tightening.watchdogArmed = true)
    ∧ getState (stepf (initClient false none)
          (.recvFrame (.num 41) ("0010".toList) 0)).cli.st .jnull
        = .error ("Converting circular structure to JSON".toList)
    ∧ ((stepf (initClient false none)
        (.recvFrame (.num 35) ("XXXX".toList) 0)).cli.st.job.jobId = some .nan)
    ∧ (getState (stepf (initClient false none)
          (.recvFrame (.num 35) ("XXXX".toList) 0)).cli.st .jnull
        = getState { (stepf (initClient false none)
              (.recvFrame (.num 35) ("XXXX".toList) 0)).cli.st with
            job := { (stepf (initClient false none)
                (.recvFrame (.num 35) ("XXXX".toList) 0)).cli.st.job with
              jobId := none } } .jnull)
    ∧ some JsNum.nan ≠ (none : Option JsNum) := by
  refine ⟨by decide, rfl, by decide, rfl, by decide⟩

theorem getStateSnapshot_inj (s t : NState) (wd : JVal)
    (hs : NoNanState s) (ht : NoNanState t)
    (hw : s.tightening.watchdogArmed = t.tightening.watchdogArmed)
    (h : getStateSnapshot s wd = getStateSnapshot t wd) :
    scrubEphemeral s = scrubEphemeral t := by
  obtain ⟨hs1, hs2, hs3, hs4, hs5, hs6, hs7, hs8⟩ := hs
  obtain ⟨ht1, ht2, ht3, ht4, ht5, ht6, ht7, ht8⟩ := ht
  obtain ⟨⟨sc1, sc2, sc3, sc4, sc5⟩, ⟨sq1, sq2, sq3, sq4⟩, ⟨sg1, sg2, sg3, sg4⟩,
    ⟨su1, su2, su3, su4⟩, ⟨sv1, sv2, sv3, sv4⟩, ⟨sj1, sj2, sj3, sj4⟩,
    ⟨sa1, sa2, sa3, sa4, sa5, sa6, sa7⟩, ⟨sti1, sti2, sti3, sti4⟩, spc⟩ := s
  obtain ⟨⟨tc1, tc2, tc3, tc4, tc5⟩, ⟨tq1, tq2, tq3, tq4⟩, ⟨tg1, tg2, tg3, tg4⟩,
    ⟨tu1, tu2, tu3, tu4⟩, ⟨tv1, tv2, tv3, tv4⟩, ⟨tj1, tj2, tj3, tj4⟩,
    ⟨ta1, ta2, ta3, ta4, ta5, ta6, ta7⟩, ⟨tti1, tti2, tti3, tti4⟩, tpc⟩ := t
  obtain rfl : sti4 = tti4 := hw
  simp only [getStateSnapshot, JVal.jobj.injEq, JVal.jarr.injEq, JVal.jbool.injEq,
    JVal.jnum.injEq, JVal.jstr.injEq, List.cons.injEq, Prod.mk.injEq, and_true, true_and,
    Nat.cast_inj] at h
  obtain ⟨⟨rfl, rfl, e3, rfl, rfl⟩, ⟨rfl, rfl, rfl, rfl⟩, ⟨rfl, rfl, g3, g4⟩,
    ⟨rfl, rfl, k3, k4⟩, ⟨p1, rfl, rfl, rfl⟩, ⟨j1, j2, rfl, rfl⟩,
    ⟨b1, b2, b3, rfl, rfl, rfl, rfl⟩, rfl, ti2⟩ := h
  obtain rfl := jsonOfOptNum_inj _ _ hs1 ht1 e3
  obtain rfl := jsonOfOptNum_inj _ _ hs2 ht2 g3
  obtain rfl := List.map_injective_iff.mpr (fun a b hab => jsonOfAlarm_inj a b hab) g4
  obtain rfl := jsonOfNum_inj _ _ hs3 ht3 k3
  obtain rfl := sourceName_inj _ _ k4
  obtain rfl := jsonOfOptStr_inj _ _ p1
  obtain rfl := jsonOfOptNum_inj _ _ hs4 ht4 j1
  obtain rfl := jsonOfOptNum_inj _ _ hs5 ht5 j2
  obtain rfl := jsonOfOptNum_inj _ _ hs6 ht6 b1
  obtain rfl := jsonOfOptNum_inj _ _ hs7 ht7 b2
  obtain rfl := jsonOfNum_inj _ _ hs8 ht8 b3
  obtain rfl := jsonOfOptQ_inj _ _ ti2
  rfl

/-- Claim C10 (amended): behavior of `getState()`.  (i) While the watchdog
timer is live (`watchdogArmed`), `JSON.stringify` hits the live `Timeout`'s
circular structure and `getState()` throws instead of returning a snapshot.
(ii) The result — throw or returned tree — is unchanged by any mutation of
the two `Map`-valued ephemeral tables, `tightening.pendingSpindles` and
`pendingCommands`; (iii) when a tree is returned the two `Map` fields read
as the empty object whatever the tables hold; (iv) on `NaN`-free states
with the watchdog not armed, the returned snapshot (for any fixed
runtime-owned image `wd` of the dead-or-null handle slot) determines every
other serialized field, i.e. all non-`Map` fields equal the internal
values.  The unqualified claim fails twice: `getState()` raises during any
watched cycle, and `JSON.stringify` renders `NaN` as `null`, conflating a
`NaN` number field with the internal value `null` — see the
counterexample. -/
theorem getState_snapshot_faithful :
    (∀ s : NState, ∀ wd : JVal, s.tightening.watchdogArmed = true →
        getState s wd = .error ("Converting circular structure to JSON".toList))
    ∧ (∀ s : NState, ∀ wd : JVal, ∀ ps : List (JsNum × TRes), ∀ pc : List (Nat × Nat),
        getState { s with
            tightening := { s.tightening with pendingSpindles := ps }
            pendingCommands := pc } wd
          = getState s wd)
    ∧ (∀ s : NState, ∀ wd : JVal,
        (getStateSnapshot s wd).field ("pendingCommands".toList) = some (.jobj [])
        ∧ ((getStateSnapshot s wd).field ("tightening".toList)).bind
            (fun v => JVal.field v ("pendingSpindles".toList)) = some (.jobj []))
    ∧ (∀ s t : NState, ∀ wd : JVal, NoNanState s → NoNanState t →
        s.tightening.watchdogArmed = false →
        getState s wd = getState t wd → scrubEphemeral s = scrubEphemeral t) := by
  refine ⟨?_, fun s wd ps pc => rfl, fun s wd => ⟨rfl, rfl⟩, ?_⟩
  · intro s wd h
    simp [getState, h]
  · intro s t wd hs ht hsw h
    simp only [getState, hsw, Bool.false_eq_true, if_false] at h
    by_cases htw : t.tightening.watchdogArmed
    · rw [if_pos htw] at h
      exact absurd h (by simp)
    · rw [if_neg htw] at h
      exact getStateSnapshot_inj s t wd hs ht
        (hsw.trans (Bool.not_eq_true _ ▸ htw : t.tightening.watchdogArmed = false).symm)
        (Except.ok.inj h)

/-- Witness for C10: after a MID 0041 starts a watched cycle `getState()`
throws; filling the two tables leaves the initial state's `getState()`
unchanged; the `pendingCommands` lookup is the empty object; and two
`NaN`-free unwatched states differing only in the ephemeral tables have
equal snapshots and equal scrubbed states. -/
theorem getState_snapshot_faithful_witness :
    (getState (stepf (initClient false none)
          (.recvFrame (.num 41) ("0010".toList) 0)).cli.st .jnull
        = .error ("Converting circular structure to JSON".toList))
    ∧ (getState { createInitialState with
          tightening := { createInitialState.tightening with
            pendingSpindles := [(.num 1, parse0065 [])] }
          pendingCommands := [(1, 18)] } .jnull
        = getState createInitialState .jnull)
    ∧ (getStateSnapshot createInitialState .jnull).field ("pendingCommands".toList)
        = some (.jobj [])
    ∧ scrubEphemeral createInitialState
        = scrubEphemeral { createInitialState with pendingCommands := [(1, 20)] } :=
  ⟨getState_snapshot_faithful.1 (stepf (initClient false none)
        (.recvFrame (.num 41) ("0010".toList) 0)).cli.st .jnull (by decide),
    getState_snapshot_faithful.2.1 createInitialState .jnull [(.num 1, parse0065 [])] [(1, 18)],
    (getState_snapshot_faithful.2.2.1 createInitialState .jnull).1,
    getState_snapshot_faithful.2.2.2 createInitialState
      { createInitialState with pendingCommands := [(1, 20)] } .jnull
      (by refine ⟨?_, ?_, ?_, ?_, ?_, ?_, ?_, ?_⟩ <;> decide)
      (by refine ⟨?_, ?_, ?_, ?_, ?_, ?_, ?_, ?_⟩ <;> decide)
      (by decide) rfl⟩
